import Mathlib

set_option maxRecDepth 10000

/-!
Verification of the transceiver-management core of the dell-sonic-200g
repository.  Byte buffers are modelled as `List Nat` (one entry per byte;
the Python code stores them as two-hex-digit strings and converts with
`int(x, 16)`, which is the identity on the byte value).  All definitions
are transcribed from `src/sonic_platform_base/sfp_standard.py` and
`src/sonic_sfp/ext_media_cmis_init.py` except where a doc comment marks
them as modelled from the spec (code imported from modules that are not
part of this repository snapshot).
-/

/-! ## Basic byte-buffer utilities -/

/-- Byte access into a raw buffer; indices used by the code are always in
range for the buffers the callers construct. -/
def byteAt (raw : List Nat) (i : Nat) : Nat := raw.getD i 0

/-- Sum of the bytes of `raw` at indices `[start, stop)`, mirroring the
`for i in range(start, stop): sum += int(raw[i], 16)` loops. -/
def sumBytes (raw : List Nat) (start stop : Nat) : Nat :=
  ((List.range' start (stop - start)).map (byteAt raw)).sum

/-- `leadsWith n h` is true when `n` is an initial segment of `h`. -/
def leadsWith : List Nat → List Nat → Bool
  | [], _ => true
  | _ :: _, [] => false
  | a :: as, b :: bs => a == b && leadsWith as bs

/-- `hasSub hay needle` mirrors the Python substring test `needle in hay`
on the ASCII byte sequences of the two strings. -/
def hasSub : List Nat → List Nat → Bool
  | [], needle => leadsWith needle []
  | a :: t, needle => leadsWith needle (a :: t) || hasSub t needle

/-- Boolean membership in a byte-code list, mirroring Python `id in [...]`. -/
def listHas : List Nat → Nat → Bool
  | [], _ => false
  | a :: t, x => x == a || listHas t x

def isFillByte (b : Nat) : Bool := b == 0x20 || b == 0x00

/-- Modelled from the spec: the FieldSchema `String` decode-kind trims
trailing fill bytes (space / NUL) and decodes as ASCII; the `sffbase`
module that implements it is not under `src/`.  We keep the decoded
string as its list of byte values. -/
def trimTrailingFill (l : List Nat) : List Nat :=
  (l.reverse.dropWhile isFillByte).reverse

/-- Modelled from the spec: a fixed-size string field of the FieldSchema
engine (`sffbase` is not under `src/`): slice `size` bytes at `offset`
and trim trailing fill. -/
def strField (raw : List Nat) (off len : Nat) : List Nat :=
  trimTrailingFill ((raw.drop off).take len)

/-! ## Module identification (`sfp_standard.get_eeprom_type`) -/

def XCVR_EEPROM_TYPE_UNKNOWN : Nat := 0
def XCVR_EEPROM_TYPE_SFP : Nat := 1
def XCVR_EEPROM_TYPE_QSFP : Nat := 2
def XCVR_EEPROM_TYPE_QSFPDD : Nat := 3
def XCVR_EEPROM_TYPE_SFPDD : Nat := 4
def XCVR_EEPROM_TYPE_QSFP56 : Nat := 5

def PORT_TYPE_SFP : Nat := 1
def PORT_TYPE_QSFP : Nat := 2
def PORT_TYPE_QSFPDD : Nat := 3
def PORT_TYPE_SFPDD : Nat := 4

def SFF8024_TYPE_SFP : List Nat := [0x03]
def SFF8024_TYPE_QSFP : List Nat := [0x0c, 0x0d, 0x11]
def SFF8024_TYPE_QSFPDD : List Nat := [0x18, 0x19]
def SFF8024_TYPE_QSFP_CMIS_COMPLIANT : List Nat := [0x1e]
def SFF8024_TYPE_SFPDD : List Nat := [0x1a]

/-- The identifier family accepted at byte 0 / byte 128 in the QSFP-class
branch (`SFF8024_TYPE_QSFP + SFF8024_TYPE_QSFPDD +
SFF8024_TYPE_QSFP_CMIS_COMPLIANT`). -/
def qsfpFamilyIds : List Nat :=
  SFF8024_TYPE_QSFP ++ SFF8024_TYPE_QSFPDD ++ SFF8024_TYPE_QSFP_CMIS_COMPLIANT

/-- Identifier resolution of `get_eeprom_type`: prefer byte 0 when it is a
recognized family code, else byte 128, with the hard-coded Amphenol
`05`/`01` exception forcing `0x11`, and `0x0c` as the final fallback. -/
def resolveQsfpId (raw : List Nat) : Nat :=
  let id1 := byteAt raw 0
  let id2 := byteAt raw 128
  if listHas qsfpFamilyIds id1 then id1
  else if listHas qsfpFamilyIds id2 then id2
  else if id1 == 0x05 && id2 == 0x01 then 0x11
  else 0x0c

/-- The first additive checksum candidate (`int(id1, 16)`): byte 0, except
that the `05`/`01` special case also reassigns `id1` to `0x11` (the codes
`0x05` and `0x01` are never in the recognized family, so the reassignment
happens exactly when byte 0 is `0x05` and byte 128 is `0x01`). -/
def cmisCand1 (raw : List Nat) : Nat :=
  if byteAt raw 0 == 0x05 && byteAt raw 128 == 0x01 then 0x11 else byteAt raw 0

def CMIS_CHECKSUM : Nat := 222
def CMIS_CHECKSUM_START : Nat := 129
def SFF8636_CC_BASE : Nat := 191
def SFF8636_CC_BASE_START : Nat := 129
def SFF8472_CC_BASE : Nat := 63
def SFF8472_CC_BASE_START : Nat := 0

/-- CMIS checksum validation: sum of bytes `[129, 222)` plus either
identifier candidate, modulo 256, against byte 222. -/
def cmisChecksumOk (raw : List Nat) : Bool :=
  let s := sumBytes raw CMIS_CHECKSUM_START CMIS_CHECKSUM
  ((s + cmisCand1 raw) % 256 == byteAt raw CMIS_CHECKSUM) ||
  ((s + byteAt raw 128) % 256 == byteAt raw CMIS_CHECKSUM)

/-- QSFP28 (CC_BASE) checksum validation: sum of bytes `[129, 191)` plus
either identifier candidate, modulo 256, against byte 191. -/
def sff8636ChecksumOk (raw : List Nat) : Bool :=
  let s := sumBytes raw SFF8636_CC_BASE_START SFF8636_CC_BASE
  ((s + cmisCand1 raw) % 256 == byteAt raw SFF8636_CC_BASE) ||
  ((s + byteAt raw 128) % 256 == byteAt raw SFF8636_CC_BASE)

/-- SFP (SFF-8472 CC_BASE) checksum validation: sum of bytes `[0, 63)`
modulo 256 against byte 63. -/
def sff8472ChecksumOk (raw : List Nat) : Bool :=
  sumBytes raw SFF8472_CC_BASE_START SFF8472_CC_BASE % 256 == byteAt raw SFF8472_CC_BASE

/-- QSFP56 fixed byte-pattern validation on bytes `[85, 90)` (the two 200G
QSFP56 SR4/FR4 signatures). -/
def qsfp56SigMatch (raw : List Nat) : Bool :=
  let t := (byteAt raw 85, byteAt raw 86, byteAt raw 87, byteAt raw 88, byteAt raw 89)
  t == (0x01, 0x0F, 0x0E, 0x44, 0x01) || t == (0x02, 0x0F, 0x18, 0x44, 0x01)

/-- Vendor Name of the CMIS layout: bytes `[129, 145)` per the `inf8628`
interface table. -/
def cmisVendorName (raw : List Nat) : List Nat := strField raw 129 16

/-- Vendor Part Number of the CMIS layout: bytes `[148, 164)` per the
`inf8628` interface table. -/
def cmisVendorPart (raw : List Nat) : List Nat := strField raw 148 16

/-- Modelled from the spec: `sff8436` is not under `src/`; its Vendor
Name field sits at bytes `[148, 164)` of the SFF-8636 layout. -/
def sff8436VendorName (raw : List Nat) : List Nat := strField raw 148 16

/-- Modelled from the spec: `sff8436` is not under `src/`; its Vendor PN
field sits at bytes `[168, 184)` of the SFF-8636 layout. -/
def sff8436VendorPN (raw : List Nat) : List Nat := strField raw 168 16

/-- ASCII byte values of the truncated vendor string `FIT \x00ON TENG`. -/
def fitNulSeq : List Nat := [70, 73, 84, 32, 0, 79, 78, 32, 84, 69, 78, 71]

/-- ASCII byte values of `FIT HON TENG`. -/
def fitHonTengSeq : List Nat := [70, 73, 84, 32, 72, 79, 78, 32, 84, 69, 78, 71]

/-- ASCII byte values of `CU4EP54-01000-EF`. -/
def cu4ep54Seq : List Nat := [67, 85, 52, 69, 80, 53, 52, 45, 48, 49, 48, 48, 48, 45, 69, 70]

/-- ASCII byte values of `FIT`. -/
def fitSeq : List Nat := [70, 73, 84]

/-- ASCII byte values of `U4DP34-0B001-EF`. -/
def u4dp34Seq : List Nat := [85, 52, 68, 80, 51, 52, 45, 48, 66, 48, 48, 49, 45, 69, 70]

/-- The `(vend, part)` pair extracted ahead of the vendor-quirk checks:
the CMIS parser when the resolved id is a QSFP-DD or CMIS-compliant code,
else the SFF-8636 parser. -/
def qsfpVendPart (raw : List Nat) : List Nat × List Nat :=
  if listHas (SFF8024_TYPE_QSFPDD ++ SFF8024_TYPE_QSFP_CMIS_COMPLIANT) (resolveQsfpId raw) then
    (cmisVendorName raw, cmisVendorPart raw)
  else (sff8436VendorName raw, sff8436VendorPN raw)

/-- First vendor-quirk guard: `part` contains `FIT \x00ON TENG`
(force-classify QSFP). -/
def fitOverrideA (raw : List Nat) : Bool := hasSub (qsfpVendPart raw).2 fitNulSeq

/-- Second vendor-quirk guard: exact `FIT HON TENG` / `CU4EP54-01000-EF`
match (force-classify QSFP-DD). -/
def fitOverrideB (raw : List Nat) : Bool :=
  (qsfpVendPart raw).1 == fitHonTengSeq && (qsfpVendPart raw).2 == cu4ep54Seq

/-- Fallback vendor-quirk guard applied when all checksum / pattern checks
failed: SFF-8636-parsed vendor name containing `FIT` and PN containing
`U4DP34-0B001-EF` (force-classify QSFP). -/
def fitOverrideC (raw : List Nat) : Bool :=
  hasSub (sff8436VendorName raw) fitSeq && hasSub (sff8436VendorPN raw) u4dp34Seq

/-- The sequence of positive checks inside the QSFP-class branch: the
QSFPDD (CMIS) checksum, the QSFP56 byte pattern, and, only if both left
the type unknown, the QSFP28 CC_BASE checksum (gated on byte 0). -/
def qsfpBranchType (raw : List Nat) : Nat :=
  let id := resolveQsfpId raw
  let t1 := if listHas SFF8024_TYPE_QSFPDD id && cmisChecksumOk raw then
    XCVR_EEPROM_TYPE_QSFPDD else XCVR_EEPROM_TYPE_UNKNOWN
  let t2 := if listHas SFF8024_TYPE_QSFP_CMIS_COMPLIANT id && qsfp56SigMatch raw then
    XCVR_EEPROM_TYPE_QSFP56 else t1
  if t2 == XCVR_EEPROM_TYPE_UNKNOWN && listHas SFF8024_TYPE_QSFP (byteAt raw 0)
      && sff8636ChecksumOk raw then
    XCVR_EEPROM_TYPE_QSFP
  else t2

/-- The in-place normalization `raw[0] = raw[128] = id` performed by
`get_eeprom_type` whenever the QSFP-class branch classifies the buffer. -/
def normId (raw : List Nat) (id : Nat) : List Nat := (raw.set 0 id).set 128 id

/-- The tail of the cascade, shared by the non-QSFP port types and by the
fall-through of the QSFP-class branch: the SFP-DD identifier test and the
SFF-8472 checksum.  It never modifies the buffer. -/
def fallbackType (raw : List Nat) : Nat × List Nat :=
  if listHas SFF8024_TYPE_SFPDD (byteAt raw 0) then (XCVR_EEPROM_TYPE_SFPDD, raw)
  else if sff8472ChecksumOk raw then (XCVR_EEPROM_TYPE_SFP, raw) else
    (XCVR_EEPROM_TYPE_UNKNOWN, raw)

/-- `SfpStandard.get_eeprom_type`, returning the resulting type together
with the (possibly normalized) buffer, because the Python function mutates
the list it is given. -/
def get_eeprom_type (port_type : Nat) (raw : List Nat) : Nat × List Nat :=
  if port_type == PORT_TYPE_QSFP || port_type == PORT_TYPE_QSFPDD then
    let id := resolveQsfpId raw
    if fitOverrideA raw then (XCVR_EEPROM_TYPE_QSFP, normId raw id)
    else if fitOverrideB raw then (XCVR_EEPROM_TYPE_QSFPDD, normId raw id)
    else
      let t := qsfpBranchType raw
      if t != XCVR_EEPROM_TYPE_UNKNOWN then (t, normId raw id)
      else if fitOverrideC raw then (XCVR_EEPROM_TYPE_QSFP, normId raw id)
      else fallbackType raw
  else fallbackType raw

/-! ## Concrete identification buffers -/

/-- A 256-byte buffer whose resolved identifier is the QSFP-DD code `0x18`
and that carries both a valid CMIS checksum over `[129, 222)` (byte 222)
and a valid SFF-8472 checksum over `[0, 63)` (byte 63). -/
def c1buf : List Nat :=
  (List.range 256).map fun i => if i = 0 ∨ i = 63 ∨ i = 128 ∨ i = 222 then 0x18 else 0

/-- A 384-byte CMIS buffer carrying the 200G QSFP56 SR4 signature at bytes
`[85, 90)` and, at the Vendor Part Number field `[148, 164)`, the broken
vendor string `FIT \x00ON TENG` padded with spaces. -/
def c5buf : List Nat :=
  (List.range 384).map fun i =>
    if i = 0 ∨ i = 128 then 0x1e
    else if i = 85 then 0x01 else if i = 86 then 0x0F else if i = 87 then 0x0E
    else if i = 88 then 0x44 else if i = 89 then 0x01
    else if 148 ≤ i ∧ i < 164 then fitNulSeq.getD (i - 148) 0x20
    else 0

/-- A 256-byte CMIS buffer with the QSFP56 SR4 signature and no vendor
strings at all. -/
def c5okbuf : List Nat :=
  (List.range 256).map fun i =>
    if i = 0 ∨ i = 128 then 0x1e
    else if i = 85 then 0x01 else if i = 86 then 0x0F else if i = 87 then 0x0E
    else if i = 88 then 0x44 else if i = 89 then 0x01
    else 0

/-- A 384-byte cache snapshot whose byte 0 is `0x1e` but whose byte 128 is
`0x00`: identification succeeds through the QSFP56 signature and then
normalizes byte 128 in place. -/
def c7buf : List Nat :=
  (List.range 384).map fun i =>
    if i = 0 then 0x1e
    else if i = 85 then 0x01 else if i = 86 then 0x0F else if i = 87 then 0x0E
    else if i = 88 then 0x44 else if i = 89 then 0x01
    else 0

/-- The all-`0xFF` 384-byte buffer: every checksum and every byte-pattern
check fails, so identification yields Unknown. -/
def c6buf : List Nat := List.replicate 384 0xff

/-! ## EEPROM cache (`populate_eeprom_cache` / `clear_eeprom_cache`) -/

/-- `SfpStandard.populate_eeprom_cache`: a no-op when a cache is already
present; otherwise the cache becomes the freshly read snapshot (`fresh`
is the result of `get_eeprom_raw`, possibly the no-data result). -/
def populate_eeprom_cache (fresh cache : Option (List Nat)) : Option (List Nat) :=
  match cache with
  | none => fresh
  | some c => some c

/-- `SfpStandard.clear_eeprom_cache`: drops the snapshot unconditionally. -/
def clear_eeprom_cache (_cache : Option (List Nat)) : Option (List Nat) := none

/-- The effect of `get_transceiver_info` on the cached snapshot: it
populates the cache if needed and then hands the cache list itself (not a
copy) to `get_eeprom_type`, whose in-place identifier normalization is
therefore visible in the cache afterwards. -/
def transceiver_info_cache (port : Nat) (fresh cache : Option (List Nat)) :
    Option (List Nat) :=
  match populate_eeprom_cache fresh cache with
  | none => none
  | some raw => some (get_eeprom_type port raw).2

/-! ## Locked raw reads (`__read_eeprom`, `read_eeprom`, `get_eeprom_raw`) -/

/-- The transport behind one read call: module presence and, for each
attempt index, either the bytes produced by `file.read(num_bytes)` (at
most `num_bytes` of them) or an `IOError`. -/
structure EepromEnv where
  presence : Bool
  attempt : Nat → Option (List Nat)

def SFP_EEPROM_MANDATORY_FIELD_OFFSET_LIMIT : Nat := 256

/-- `retry_expiry = 4` — the loop bound of `__read_eeprom`. -/
def retry_expiry : Nat := 4

/-- `retry_interval = 0.25 s`, tracked in milliseconds. -/
def retry_interval_ms : Nat := 250

/-- The `while retry_count < retry_expiry` loop of `__read_eeprom`,
returning the raw result together with the number of I/O attempts made
and the list of sleeps (in ms) performed.  A failed attempt sleeps and
retries only when `[offset, offset+num_bytes)` lies inside the mandatory
first 256 bytes; otherwise it gives up at once. -/
def read_retry_loop (env : EepromEnv) (offset num_bytes : Nat) :
    Nat → Nat → Option (List Nat) × Nat × List Nat
  | _, 0 => (none, 0, [])
  | idx, fuel + 1 =>
    match env.attempt idx with
    | some b => (some b, 1, [])
    | none =>
      if offset < SFP_EEPROM_MANDATORY_FIELD_OFFSET_LIMIT ∧
          offset + num_bytes ≤ SFP_EEPROM_MANDATORY_FIELD_OFFSET_LIMIT then
        let rest := read_retry_loop env offset num_bytes (idx + 1) fuel
        (rest.1, rest.2.1 + 1, retry_interval_ms :: rest.2.2)
      else (none, 1, [])

/-- `__read_eeprom` (and hence `read_eeprom`, which only adds locking):
presence check, bounded retry loop, then zero-padding of a short
successful read up to `num_bytes`. -/
def read_eeprom_model (env : EepromEnv) (offset num_bytes : Nat) :
    Option (List Nat) × Nat × List Nat :=
  if env.presence then
    let o := read_retry_loop env offset num_bytes 0 retry_expiry
    match o.1 with
    | none => o
    | some b => (some (b ++ List.replicate (num_bytes - b.length) 0), o.2.1, o.2.2)
  else (none, 0, [])

def hexDigitChar (d : Nat) : Char :=
  if d < 10 then Char.ofNat (48 + d) else Char.ofNat (87 + d)

/-- The two-hex-digit lowercase rendering `"{0:02x}".format(b)` of a byte. -/
def hex2 (b : Nat) : String := String.mk [hexDigitChar (b / 16 % 16), hexDigitChar (b % 16)]

/-- `get_eeprom_raw`: hex-string rendering of `read_eeprom`, padded with
`"00"` entries up to `num_bytes`. -/
def get_eeprom_raw_model (env : EepromEnv) (offset num_bytes : Nat) :
    Option (List String) :=
  match (read_eeprom_model env offset num_bytes).1 with
  | none => none
  | some b =>
    let l := b.map hex2
    some (l ++ List.replicate (num_bytes - l.length) "00")

/-- A transport whose every attempt fails with an I/O error. -/
def failEnv : EepromEnv := { presence := true, attempt := fun _ => none }

/-- A transport whose first attempt returns the (possibly short) byte list
`s`. -/
def shortEnv (s : List Nat) : EepromEnv :=
  { presence := true, attempt := fun k => if k == 0 then some s else none }

/-! ## Read-modify-write byte helper (`modify_eeprom_byte`) -/

/-- `SfpStandard.modify_eeprom_byte` over a byte-addressed memory with
succeeding I/O.  Returns the result flag, the memory afterwards, and the
number of physical writes performed.  `old & ~mask` of the Python source
is `old ^^^ (old &&& mask)` (the bits of `old` outside the mask). -/
def modify_eeprom_byte (mem : Nat → Nat) (offset value mask : Nat) :
    Bool × (Nat → Nat) × Nat :=
  let old := mem offset
  let nw := value &&& mask
  if nw != old &&& mask then
    (true, fun i => if i == offset then (old ^^^ (old &&& mask)) ||| nw else mem i, 1)
  else (true, mem, 0)

/-- A memory holding `0xAB` at offset 5. -/
def c8mem : Nat → Nat := fun i => if i == 5 then 0xAB else 0

/-! ## CMIS initialization (`ext_media_cmis_init`) -/

/-- A paged register address (`media_eeprom_address`). -/
structure MediaAddr where
  page : Nat
  offset : Nat

/-- `_page_to_flat_offset`: `(page+1)*128 + (offset & 0x7f)` for paged
addresses, the flat offset otherwise. -/
def page_to_flat (a : MediaAddr) : Nat :=
  if 0 < a.page && 127 < a.offset then (a.page + 1) * 128 + (a.offset &&& 0x7f)
  else a.offset

def LOW_PWR_FLAT : Nat := page_to_flat ⟨0, 26⟩
def MOD_FLAGS_FLAT : Nat := page_to_flat ⟨0, 3⟩
def TX_DISABLE_FLAT : Nat := page_to_flat ⟨0x10, 130⟩
def STAGED_CS0_APPLY_FLAT : Nat := page_to_flat ⟨0x10, 143⟩
def STAGED_CS0_SELECT_FLAT : Nat := page_to_flat ⟨0x10, 145⟩
def DATAPATH_DE_INIT_FLAT : Nat := page_to_flat ⟨0x10, 128⟩
def DATAPATH_STATE_FLAT : Nat := page_to_flat ⟨0x11, 128⟩
def CONFIG_ERRORS_FLAT : Nat := page_to_flat ⟨0x11, 202⟩
def CMIS_MEDIA_TYPE_FLAT : Nat := page_to_flat ⟨0, 85⟩

/-- The module register space seen through the flat optoe addressing. -/
def Regs : Type := Nat → Nat

/-- A byte-range register write (`write_bytes`). -/
def writeBytes : Regs → Nat → List Nat → Regs
  | r, _, [] => r
  | r, off, b :: bs => writeBytes (fun i => if i == off then b else r i) (off + 1) bs

/-- The 32-bit big-endian word `(b0<<24)|(b1<<16)|(b2<<8)|b3` read at
`off`. -/
def word32At (r : Regs) (off : Nat) : Nat :=
  (r off <<< 24) ||| (r (off + 1) <<< 16) ||| (r (off + 2) <<< 8) ||| r (off + 3)

def DATAPATH_STATE_ACTIVATE : Nat := 0x44444444
def DATAPATH_STATE_INITIALIZED : Nat := 0x77777777
def CONFIG_STATE_ACCEPTED : Nat := 0x11111111

def INIT_TYPE_QUICK : Nat := 2
def INIT_TYPE_MEDIUM : Nat := 1
def INIT_TYPE_COMPLETE : Nat := 0

/-- `determine_init_type`, as a function of the CMIS version byte and the
decoded media-type-encoding byte 85. -/
def determine_init_type (cmis_ver m_type : Nat) : Nat :=
  if m_type == 0x03 || m_type == 0x05 then INIT_TYPE_QUICK
  else if cmis_ver == 0x30 then INIT_TYPE_COMPLETE
  else if m_type == 0x04 then INIT_TYPE_MEDIUM
  else if m_type == 0x01 || m_type == 0x02 then INIT_TYPE_COMPLETE
  else INIT_TYPE_QUICK

/-- `l[i] |= v` on a Python byte list. -/
def orAt (l : List Nat) (i v : Nat) : List Nat := l.set i (l.getD i 0 ||| v)

/-- `bytes[n] |= 0x01 for n in range(8)` — the retry toggle of bit 0. -/
def orAll1 (l : List Nat) : List Nat :=
  orAt (orAt (orAt (orAt (orAt (orAt (orAt (orAt l 0 1) 1 1) 2 1) 3 1) 4 1) 5 1) 6 1) 7 1

/-- The application-select byte array built by `initialize_cmis4` (source
lines 346-383): `[application << 4] * 8`, the first-lane-of-datapath
markers for the given `lanes_per_port`, and bit 0 toggled on every lane
when `retries & 0x01` is set. -/
def cmis4_app_select_bytes (application lanes_per_port retries : Nat) : List Nat :=
  let a := application <<< 4
  let b := [a, a, a, a, a, a, a, a]
  let b :=
    if lanes_per_port == 8 then b
    else if lanes_per_port == 4 then
      orAt (orAt (orAt (orAt b 4 0x08) 5 0x08) 6 0x08) 7 0x08
    else if lanes_per_port == 2 then
      orAt (orAt (orAt (orAt (orAt (orAt b 2 0x04) 3 0x04) 4 0x08) 5 0x08) 6 0x0c) 7 0x0c
    else if lanes_per_port == 1 then
      orAt (orAt (orAt (orAt (orAt (orAt (orAt b 1 0x02) 2 0x04) 3 0x06) 4 0x08) 5 0x0a)
        6 0x0c) 7 0x0e
    else b
  if retries &&& 0x01 == 1 then orAll1 b else b

/-- The application-select byte array built by `initialize_cmis3` (source
lines 536-573): same construction, but the bit-0 toggle fires on the last
attempt (`retries == 0`). -/
def cmis3_app_select_bytes (application lanes_per_port retries : Nat) : List Nat :=
  let a := application <<< 4
  let b := [a, a, a, a, a, a, a, a]
  let b :=
    if lanes_per_port == 8 then b
    else if lanes_per_port == 4 then
      orAt (orAt (orAt (orAt b 4 0x08) 5 0x08) 6 0x08) 7 0x08
    else if lanes_per_port == 2 then
      orAt (orAt (orAt (orAt (orAt (orAt b 2 0x04) 3 0x04) 4 0x08) 5 0x08) 6 0x0c) 7 0x0c
    else if lanes_per_port == 1 then
      orAt (orAt (orAt (orAt (orAt (orAt (orAt b 1 0x02) 2 0x04) 3 0x06) 4 0x08) 5 0x0a)
        6 0x0c) 7 0x0e
    else b
  if retries == 0 then orAll1 b else b

/-- The marker pattern the spec documents, stated independently of the
builders: `[app<<4]*8` with no markers for 8 lanes per port, `0x08` on
bytes 4-7 for 4, the staggered `0x04/0x04/0x08/0x08/0x0c/0x0c` pattern on
bytes 2-7 for 2, and `0x02,0x04,0x06,0x08,0x0a,0x0c,0x0e` on bytes 1-7
for 1. -/
def claimed_app_select (application lanes_per_port : Nat) : List Nat :=
  let a := application <<< 4
  if lanes_per_port == 8 then [a, a, a, a, a, a, a, a]
  else if lanes_per_port == 4 then
    [a, a, a, a, a ||| 0x08, a ||| 0x08, a ||| 0x08, a ||| 0x08]
  else if lanes_per_port == 2 then
    [a, a, a ||| 0x04, a ||| 0x04, a ||| 0x08, a ||| 0x08, a ||| 0x0c, a ||| 0x0c]
  else
    [a, a ||| 0x02, a ||| 0x04, a ||| 0x06, a ||| 0x08, a ||| 0x0a, a ||| 0x0c, a ||| 0x0e]

/-- The `bitmask` dictionary of `initialize_cmis4` (`KeyError` for other
lane counts is modelled as `none`; the lookup at the config-error check is
guarded by `try`/`except: continue`, so a missing key means the check
never succeeds). -/
def bitmaskOpt (lanes_per_port : Nat) : Option Nat :=
  if lanes_per_port == 2 then some 0xffffffff
  else if lanes_per_port == 4 then some 0xffff0000
  else if lanes_per_port == 8 then some 0xffffffff
  else none

/-- The register writes of one iteration of the `initialize_cmis4` retry
loop up to the config-error poll: reset (no register effect), force low
power, enforce tx-disable, datapath deinit (CMIS >= 4.0 polarity writes
`0xFF`), stage the application selection, apply it, and release low
power.  The deinit-acknowledge poll only reads registers. -/
def cmis4_attempt_regs (application lanes_per_port retries : Nat) (r : Regs) : Regs :=
  let r := writeBytes r LOW_PWR_FLAT [0x10]
  let r := writeBytes r TX_DISABLE_FLAT [0xFF]
  let r := writeBytes r DATAPATH_DE_INIT_FLAT [0xFF]
  let r := writeBytes r STAGED_CS0_SELECT_FLAT
    (cmis4_app_select_bytes application lanes_per_port retries)
  let r := writeBytes r STAGED_CS0_APPLY_FLAT [0xFF]
  writeBytes r LOW_PWR_FLAT [0x00]

/-- One iteration of the `while not ready and retries >= 0` body of
`initialize_cmis4`, against a device whose autonomous status registers do
not change during the polls (each bounded poll therefore reduces to a
single test of the current register values). -/
def cmis4_body (application lanes_per_port retries : Nat) (r : Regs) : Bool × Regs :=
  let r := cmis4_attempt_regs application lanes_per_port retries r
  let conf_ready :=
    match bitmaskOpt lanes_per_port with
    | none => false
    | some m => word32At r CONFIG_ERRORS_FLAT &&& m == CONFIG_STATE_ACCEPTED &&& m
  if conf_ready then
    let r := writeBytes r DATAPATH_DE_INIT_FLAT [0x00]
    let m := (bitmaskOpt lanes_per_port).getD 0
    let e := word32At r DATAPATH_STATE_FLAT
    if (e &&& m == DATAPATH_STATE_ACTIVATE &&& m) ||
        (e &&& m == DATAPATH_STATE_INITIALIZED &&& m) then (true, r)
    else (false, r)
  else (false, r)

/-- The retry loop of `initialize_cmis4`: run the body with the current
`retries` value, decrement, and continue while not ready and the budget
is not exhausted. -/
def cmis4_loop (application lanes_per_port : Nat) : Nat → Regs → Bool × Regs
  | 0, r => cmis4_body application lanes_per_port 0 r
  | n + 1, r =>
    let p := cmis4_body application lanes_per_port (n + 1) r
    if p.1 then (true, p.2) else cmis4_loop application lanes_per_port n p.2

/-- `initialize_cmis4`: the no-application-change early exit, then the
retry loop with a doubled budget, then the unconditional tx-enable write
(`set_tx_disable(False)` at source lines 441-442). -/
def init_cmis4 (application lanes_per_port retries : Nat) (r : Regs) : Bool × Regs :=
  let cur := r STAGED_CS0_SELECT_FLAT >>> 4
  let sta := (r MOD_FLAGS_FLAT >>> 1) &&& 0x7
  if cur == application && sta == 3 then (true, r)
  else
    let p := cmis4_loop application lanes_per_port (retries * 2) r
    (p.1, writeBytes p.2 TX_DISABLE_FLAT [0x00])

/-- A device state on which `initialize_cmis4` takes the early exit: the
staged application nibble already equals application 1, the module state
reads Ready, and tx-disable is latched at `0xFF`. -/
def c2SkipRegs : Regs := fun i =>
  if i == STAGED_CS0_SELECT_FLAT then 0x10
  else if i == MOD_FLAGS_FLAT then 0x06
  else if i == TX_DISABLE_FLAT then 0xFF
  else 0

/-- The all-zero device state. -/
def zeroRegs : Regs := fun _ => 0

/-! ## Decoder entry points (`get_transceiver_*`) -/

/-- A field mapping (Python dict) with newest-binding-first lookup. -/
def Dict : Type := List (String × String)

/-- `d[k] = v`. -/
def dictSet (d : Dict) (k v : String) : Dict := (k, v) :: d

/-- A sequence of dict assignments, in order. -/
def dictSetAll (d : Dict) : List (String × String) → Dict
  | [] => d
  | (k, v) :: ps => dictSetAll (dictSet d k v) ps

/-- `{}.fromkeys(keys, v)`. -/
def dictInit (keys : List String) (v : String) : Dict := keys.map fun k => (k, v)

/-- Modelled from the spec: the FieldSchema decode engine (`sffbase`,
`sff8436`, `sff8472`, `mis2`, `qsfp_dd` are not under `src/`).  Per the
spec it is a pure, total function of the byte buffer that never raises
and degrades malformed fields to sentinels, so it is modelled as an
arbitrary total function `fld (decoder, buffer, field-name)` together
with the arbitrary total booleans `cond` that gate the conditional
assignments (cable-length positivity, compliance flags, capability
bits). -/
structure DecOracle where
  fld : String → List Nat → String → String
  cond : String → List Nat → Bool

/-- The constant `"N/A"` decode engine. -/
def decNA : DecOracle := { fld := fun _ _ _ => "N/A", cond := fun _ _ => false }

def bulk_status_keys : List String :=
  ["temperature", "voltage", "rx1power", "rx2power", "rx3power", "rx4power",
   "tx1bias", "tx2bias", "tx3bias", "tx4bias", "tx1power", "tx2power",
   "tx3power", "tx4power"]

def threshold_keys : List String :=
  ["temphighalarm", "temphighwarning", "templowalarm", "templowwarning",
   "vcchighalarm", "vcchighwarning", "vcclowalarm", "vcclowwarning",
   "rxpowerhighalarm", "rxpowerhighwarning", "rxpowerlowalarm", "rxpowerlowwarning",
   "txpowerhighalarm", "txpowerhighwarning", "txpowerlowalarm", "txpowerlowwarning",
   "txbiashighalarm", "txbiashighwarning", "txbiaslowalarm", "txbiaslowwarning"]

def info_dict_keys : List String :=
  ["type", "hardware_rev", "serial", "manufacturer", "model", "connector",
   "encoding", "ext_identifier", "ext_rateselect_compliance", "cable_type",
   "cable_length", "nominal_bit_rate", "specification_compliance",
   "type_abbrv_name", "vendor_date", "vendor_oui", "application_advertisement"]

/-- The QSFP-DD/QSFP56 DOM assembly of `get_transceiver_bulk_status`: a
2432-entry zero page image overlaid with the low 256 bytes and, when the
page-`0x11` refresh read succeeds, with those 128 bytes at flat 2304. -/
def assembleCmisDom (raw : List Nat) (page11 : Option (List Nat)) : List Nat :=
  let base := (List.range 2432).map fun i => byteAt raw i
  match page11 with
  | none => base
  | some t => (List.range 2432).map fun i =>
      if 2304 ≤ i ∧ i - 2304 < t.length then byteAt t (i - 2304) else byteAt base i

def cmisBulkPairs (dec : DecOracle) (domRaw : List Nat) : List (String × String) :=
  [("temperature", dec.fld "inf8628Dom" domRaw "Temperature"),
   ("voltage", dec.fld "inf8628Dom" domRaw "Vcc"),
   ("rx1power", dec.fld "inf8628Dom" domRaw "RX1Power"),
   ("rx2power", dec.fld "inf8628Dom" domRaw "RX2Power"),
   ("rx3power", dec.fld "inf8628Dom" domRaw "RX3Power"),
   ("rx4power", dec.fld "inf8628Dom" domRaw "RX4Power"),
   ("rx5power", dec.fld "inf8628Dom" domRaw "RX5Power"),
   ("rx6power", dec.fld "inf8628Dom" domRaw "RX6Power"),
   ("rx7power", dec.fld "inf8628Dom" domRaw "RX7Power"),
   ("rx8power", dec.fld "inf8628Dom" domRaw "RX8Power"),
   ("tx1bias", dec.fld "inf8628Dom" domRaw "TX1Bias"),
   ("tx2bias", dec.fld "inf8628Dom" domRaw "TX2Bias"),
   ("tx3bias", dec.fld "inf8628Dom" domRaw "TX3Bias"),
   ("tx4bias", dec.fld "inf8628Dom" domRaw "TX4Bias"),
   ("tx5bias", dec.fld "inf8628Dom" domRaw "TX5Bias"),
   ("tx6bias", dec.fld "inf8628Dom" domRaw "TX6Bias"),
   ("tx7bias", dec.fld "inf8628Dom" domRaw "TX7Bias"),
   ("tx8bias", dec.fld "inf8628Dom" domRaw "TX8Bias"),
   ("tx1power", dec.fld "inf8628Dom" domRaw "TX1Power"),
   ("tx2power", dec.fld "inf8628Dom" domRaw "TX2Power"),
   ("tx3power", dec.fld "inf8628Dom" domRaw "TX3Power"),
   ("tx4power", dec.fld "inf8628Dom" domRaw "TX4Power"),
   ("tx5power", dec.fld "inf8628Dom" domRaw "TX5Power"),
   ("tx6power", dec.fld "inf8628Dom" domRaw "TX6Power"),
   ("tx7power", dec.fld "inf8628Dom" domRaw "TX7Power"),
   ("tx8power", dec.fld "inf8628Dom" domRaw "TX8Power")]

def qsfpTxPowerPairs (dec : DecOracle) (raw : List Nat) : List (String × String) :=
  [("tx1power", dec.fld "sff8436Dom" raw "TX1Power"),
   ("tx2power", dec.fld "sff8436Dom" raw "TX2Power"),
   ("tx3power", dec.fld "sff8436Dom" raw "TX3Power"),
   ("tx4power", dec.fld "sff8436Dom" raw "TX4Power")]

def qsfpBulkPairs (dec : DecOracle) (raw : List Nat) : List (String × String) :=
  [("temperature", dec.fld "sff8436Dom" raw "Temperature"),
   ("voltage", dec.fld "sff8436Dom" raw "Vcc"),
   ("rx1power", dec.fld "sff8436Dom" raw "RX1Power"),
   ("rx2power", dec.fld "sff8436Dom" raw "RX2Power"),
   ("rx3power", dec.fld "sff8436Dom" raw "RX3Power"),
   ("rx4power", dec.fld "sff8436Dom" raw "RX4Power"),
   ("tx1bias", dec.fld "sff8436Dom" raw "TX1Bias"),
   ("tx2bias", dec.fld "sff8436Dom" raw "TX2Bias"),
   ("tx3bias", dec.fld "sff8436Dom" raw "TX3Bias"),
   ("tx4bias", dec.fld "sff8436Dom" raw "TX4Bias")]

def mis2BulkPairs (dec : DecOracle) (raw : List Nat) : List (String × String) :=
  [("temperature", dec.fld "mis2Dom" raw "Temperature"),
   ("voltage", dec.fld "mis2Dom" raw "Vcc"),
   ("rx1power", dec.fld "mis2Dom" raw "RX1Power"),
   ("rx2power", dec.fld "mis2Dom" raw "RX2Power"),
   ("tx1bias", dec.fld "mis2Dom" raw "TX1Bias"),
   ("tx2bias", dec.fld "mis2Dom" raw "TX2Bias"),
   ("tx1power", dec.fld "mis2Dom" raw "TX1Power"),
   ("tx2power", dec.fld "mis2Dom" raw "TX2Power")]

def sfpBulkPairs (dec : DecOracle) (domRaw : List Nat) : List (String × String) :=
  [("temperature", dec.fld "sff8472Dom" domRaw "Temperature"),
   ("voltage", dec.fld "sff8472Dom" domRaw "Vcc"),
   ("rx1power", dec.fld "sff8472Dom" domRaw "RXPower"),
   ("tx1power", dec.fld "sff8472Dom" domRaw "TXPower"),
   ("tx1bias", dec.fld "sff8472Dom" domRaw "TXBias"),
   ("rx1los", dec.fld "sff8472Dom" domRaw "RXLOSState"),
   ("tx1disable", dec.fld "sff8472Dom" domRaw "TXDisableState"),
   ("tx1fault", dec.fld "sff8472Dom" domRaw "TXFaultState")]

/-- `get_transceiver_bulk_status`: the pre-populated `"N/A"` mapping, a
fresh 256-byte low-page read, identification, and the per-standard DOM
decode; every early-out returns the pre-populated mapping. -/
def get_transceiver_bulk_status (dec : DecOracle) (port : Nat)
    (read : Nat → Nat → Option (List Nat)) : Dict :=
  let base := dictInit bulk_status_keys "N/A"
  match read 0 256 with
  | none => base
  | some raw =>
    let t := (get_eeprom_type port raw).1
    if t == XCVR_EEPROM_TYPE_UNKNOWN then base
    else if t == XCVR_EEPROM_TYPE_QSFPDD || t == XCVR_EEPROM_TYPE_QSFP56 then
      dictSetAll base (cmisBulkPairs dec (assembleCmisDom raw (read 2304 128)))
    else if t == XCVR_EEPROM_TYPE_QSFP then
      let d0 := if 0 < byteAt raw 220 &&& 0x04 then
        dictSetAll base (qsfpTxPowerPairs dec raw) else base
      dictSetAll d0 (qsfpBulkPairs dec raw)
    else if t == XCVR_EEPROM_TYPE_SFPDD then
      dictSetAll base (mis2BulkPairs dec raw)
    else
      match read 0x160 16 with
      | none => base
      | some tempRaw =>
        match read 0x16e 1 with
        | none => base
        | some stcrRaw => dictSetAll base (sfpBulkPairs dec (tempRaw ++ stcrRaw))

def cmisThresholdPairs (dec : DecOracle) (domRaw : List Nat) : List (String × String) :=
  [("temphighalarm", dec.fld "inf8628Dom" domRaw "TempHighAlarm"),
   ("temphighwarning", dec.fld "inf8628Dom" domRaw "TempHighWarning"),
   ("templowalarm", dec.fld "inf8628Dom" domRaw "TempLowAlarm"),
   ("templowwarning", dec.fld "inf8628Dom" domRaw "TempLowWarning"),
   ("vcchighalarm", dec.fld "inf8628Dom" domRaw "VccHighAlarm"),
   ("vcchighwarning", dec.fld "inf8628Dom" domRaw "VccHighWarning"),
   ("vcclowalarm", dec.fld "inf8628Dom" domRaw "VccLowAlarm"),
   ("vcclowwarning", dec.fld "inf8628Dom" domRaw "VccLowWarning"),
   ("rxpowerhighalarm", dec.fld "inf8628Dom" domRaw "RxPowerHighAlarm"),
   ("rxpowerhighwarning", dec.fld "inf8628Dom" domRaw "RxPowerHighWarning"),
   ("rxpowerlowalarm", dec.fld "inf8628Dom" domRaw "RxPowerLowAlarm"),
   ("rxpowerlowwarning", dec.fld "inf8628Dom" domRaw "RxPowerLowWarning"),
   ("txpowerhighalarm", dec.fld "inf8628Dom" domRaw "TxPowerHighAlarm"),
   ("txpowerhighwarning", dec.fld "inf8628Dom" domRaw "TxPowerHighWarning"),
   ("txpowerlowalarm", dec.fld "inf8628Dom" domRaw "TxPowerLowAlarm"),
   ("txpowerlowwarning", dec.fld "inf8628Dom" domRaw "TxPowerLowWarning"),
   ("txbiashighalarm", dec.fld "inf8628Dom" domRaw "TxBiasHighAlarm"),
   ("txbiashighwarning", dec.fld "inf8628Dom" domRaw "TxBiasHighWarning"),
   ("txbiaslowalarm", dec.fld "inf8628Dom" domRaw "TxBiasLowAlarm"),
   ("txbiaslowwarning", dec.fld "inf8628Dom" domRaw "TxBiasLowWarning")]

def qsfpThresholdPairsA (dec : DecOracle) (domRaw : List Nat) : List (String × String) :=
  [("temphighalarm", dec.fld "sff8436Dom" domRaw "TempHighAlarm"),
   ("temphighwarning", dec.fld "sff8436Dom" domRaw "TempHighWarning"),
   ("templowalarm", dec.fld "sff8436Dom" domRaw "TempLowAlarm"),
   ("templowwarning", dec.fld "sff8436Dom" domRaw "TempLowWarning"),
   ("vcchighalarm", dec.fld "sff8436Dom" domRaw "VccHighAlarm"),
   ("vcchighwarning", dec.fld "sff8436Dom" domRaw "VccHighWarning"),
   ("vcclowalarm", dec.fld "sff8436Dom" domRaw "VccLowAlarm"),
   ("vcclowwarning", dec.fld "sff8436Dom" domRaw "VccLowWarning"),
   ("rxpowerhighalarm", dec.fld "sff8436Dom" domRaw "RxPowerHighAlarm"),
   ("rxpowerhighwarning", dec.fld "sff8436Dom" domRaw "RxPowerHighWarning"),
   ("rxpowerlowalarm", dec.fld "sff8436Dom" domRaw "RxPowerLowAlarm"),
   ("rxpowerlowwarning", dec.fld "sff8436Dom" domRaw "RxPowerLowWarning")]

def qsfpThresholdPairsTx (dec : DecOracle) (domRaw : List Nat) : List (String × String) :=
  [("txpowerhighalarm", dec.fld "sff8436Dom" domRaw "TxPowerHighAlarm"),
   ("txpowerhighwarning", dec.fld "sff8436Dom" domRaw "TxPowerHighWarning"),
   ("txpowerlowalarm", dec.fld "sff8436Dom" domRaw "TxPowerLowAlarm"),
   ("txpowerlowwarning", dec.fld "sff8436Dom" domRaw "TxPowerLowWarning")]

def qsfpThresholdPairsB (dec : DecOracle) (domRaw : List Nat) : List (String × String) :=
  [("txbiashighalarm", dec.fld "sff8436Dom" domRaw "TxBiasHighAlarm"),
   ("txbiashighwarning", dec.fld "sff8436Dom" domRaw "TxBiasHighWarning"),
   ("txbiaslowalarm", dec.fld "sff8436Dom" domRaw "TxBiasLowAlarm"),
   ("txbiaslowwarning", dec.fld "sff8436Dom" domRaw "TxBiasLowWarning")]

def sfpThresholdPairs (dec : DecOracle) (domRaw : List Nat) : List (String × String) :=
  [("temphighalarm", dec.fld "sff8472Dom" domRaw "TempHighAlarm"),
   ("temphighwarning", dec.fld "sff8472Dom" domRaw "TempHighWarning"),
   ("templowalarm", dec.fld "sff8472Dom" domRaw "TempLowAlarm"),
   ("templowwarning", dec.fld "sff8472Dom" domRaw "TempLowWarning"),
   ("vcchighalarm", dec.fld "sff8472Dom" domRaw "VoltageHighAlarm"),
   ("vcchighwarning", dec.fld "sff8472Dom" domRaw "VoltageHighWarning"),
   ("vcclowalarm", dec.fld "sff8472Dom" domRaw "VoltageLowAlarm"),
   ("vcclowwarning", dec.fld "sff8472Dom" domRaw "VoltageLowWarning"),
   ("rxpowerhighalarm", dec.fld "sff8472Dom" domRaw "RXPowerHighAlarm"),
   ("rxpowerhighwarning", dec.fld "sff8472Dom" domRaw "RXPowerHighWarning"),
   ("rxpowerlowalarm", dec.fld "sff8472Dom" domRaw "RXPowerLowAlarm"),
   ("rxpowerlowwarning", dec.fld "sff8472Dom" domRaw "RXPowerLowWarning"),
   ("txbiashighalarm", dec.fld "sff8472Dom" domRaw "BiasHighAlarm"),
   ("txbiashighwarning", dec.fld "sff8472Dom" domRaw "BiasHighWarning"),
   ("txbiaslowalarm", dec.fld "sff8472Dom" domRaw "BiasLowAlarm"),
   ("txbiaslowwarning", dec.fld "sff8472Dom" domRaw "BiasLowWarning"),
   ("txpowerhighalarm", dec.fld "sff8472Dom" domRaw "TXPowerHighAlarm"),
   ("txpowerhighwarning", dec.fld "sff8472Dom" domRaw "TXPowerHighWarning"),
   ("txpowerlowalarm", dec.fld "sff8472Dom" domRaw "TXPowerLowAlarm"),
   ("txpowerlowwarning", dec.fld "sff8472Dom" domRaw "TXPowerLowWarning")]

def mis2ThresholdPairs (dec : DecOracle) (domRaw : List Nat) : List (String × String) :=
  [("temphighalarm", dec.fld "mis2Dom" domRaw "TempHighAlarm"),
   ("temphighwarning", dec.fld "mis2Dom" domRaw "TempHighWarning"),
   ("templowalarm", dec.fld "mis2Dom" domRaw "TempLowAlarm"),
   ("templowwarning", dec.fld "mis2Dom" domRaw "TempLowWarning"),
   ("vcchighalarm", dec.fld "mis2Dom" domRaw "VccHighAlarm"),
   ("vcchighwarning", dec.fld "mis2Dom" domRaw "VccHighWarning"),
   ("vcclowalarm", dec.fld "mis2Dom" domRaw "VccLowAlarm"),
   ("vcclowwarning", dec.fld "mis2Dom" domRaw "VccLowWarning"),
   ("rxpowerhighalarm", dec.fld "mis2Dom" domRaw "RxPowerHighAlarm"),
   ("rxpowerhighwarning", dec.fld "mis2Dom" domRaw "RxPowerHighWarning"),
   ("rxpowerlowalarm", dec.fld "mis2Dom" domRaw "RxPowerLowAlarm"),
   ("rxpowerlowwarning", dec.fld "mis2Dom" domRaw "RxPowerLowWarning"),
   ("txpowerhighalarm", dec.fld "mis2Dom" domRaw "TxPowerHighAlarm"),
   ("txpowerhighwarning", dec.fld "mis2Dom" domRaw "TxPowerHighWarning"),
   ("txpowerlowalarm", dec.fld "mis2Dom" domRaw "TxPowerLowAlarm"),
   ("txpowerlowwarning", dec.fld "mis2Dom" domRaw "TxPowerLowWarning"),
   ("txbiashighalarm", dec.fld "mis2Dom" domRaw "TxBiasHighAlarm"),
   ("txbiashighwarning", dec.fld "mis2Dom" domRaw "TxBiasHighWarning"),
   ("txbiaslowalarm", dec.fld "mis2Dom" domRaw "TxBiasLowAlarm"),
   ("txbiaslowwarning", dec.fld "mis2Dom" domRaw "TxBiasLowWarning")]

/-- `get_transceiver_threshold_info`: the pre-populated `"N/A"` mapping, a
fresh low-page read, identification, and the per-standard threshold-page
read and decode; every failed read returns the pre-populated mapping. -/
def get_transceiver_threshold_info (dec : DecOracle) (port : Nat)
    (read : Nat → Nat → Option (List Nat)) : Dict :=
  let base := dictInit threshold_keys "N/A"
  match read 0 256 with
  | none => base
  | some raw =>
    let t := (get_eeprom_type port raw).1
    if t == XCVR_EEPROM_TYPE_UNKNOWN then base
    else if t == XCVR_EEPROM_TYPE_QSFPDD || t == XCVR_EEPROM_TYPE_QSFP56 then
      match read 384 128 with
      | none => base
      | some domRaw => dictSetAll base (cmisThresholdPairs dec domRaw)
    else if t == XCVR_EEPROM_TYPE_QSFP then
      match read 512 128 with
      | none => base
      | some domRaw =>
        let d0 := dictSetAll base (qsfpThresholdPairsA dec domRaw)
        let d1 := if 0 < byteAt raw 220 &&& 0x04 then
          dictSetAll d0 (qsfpThresholdPairsTx dec domRaw) else d0
        dictSetAll d1 (qsfpThresholdPairsB dec domRaw)
    else if t == XCVR_EEPROM_TYPE_SFP then
      match read 256 40 with
      | none => base
      | some domRaw => dictSetAll base (sfpThresholdPairs dec domRaw)
    else if t == XCVR_EEPROM_TYPE_SFPDD then
      match read 256 128 with
      | none => base
      | some domRaw => dictSetAll base (mis2ThresholdPairs dec domRaw)
    else base

/-- The `sfp_keys` assignment loop of `get_transceiver_info` for the
CMIS-class branch (field names per `inf8628`). -/
def cmisInfoPairs (dec : DecOracle) (raw : List Nat) : List (String × String) :=
  [("type", dec.fld "inf8628" raw "Identifier"),
   ("type_abbrv_name", dec.fld "inf8628" raw "type_abbrv_name"),
   ("manufacturer", dec.fld "inf8628" raw "Vendor Name"),
   ("model", dec.fld "inf8628" raw "Vendor Part Number"),
   ("hardware_rev", dec.fld "inf8628" raw "Vendor Revision"),
   ("serial", dec.fld "inf8628" raw "Vendor Serial Number"),
   ("vendor_date", dec.fld "inf8628" raw "Vendor Date Code"),
   ("vendor_oui", dec.fld "inf8628" raw "Vendor OUI"),
   ("module_state", dec.fld "inf8628" raw "Module State"),
   ("media_type", dec.fld "inf8628" raw "Media Type"),
   ("memory_type", dec.fld "inf8628" raw "Upper Memory Type"),
   ("power_class", dec.fld "inf8628" raw "Power Class"),
   ("revision_compliance", dec.fld "inf8628" raw "Revision Compliance")]

/-- The `sfp_keys` assignment loop for the SFF-8636 (QSFP) branch. -/
def qsfpInfoPairs (dec : DecOracle) (raw : List Nat) : List (String × String) :=
  [("type", dec.fld "sff8436" raw "Identifier"),
   ("type_abbrv_name", dec.fld "sff8436" raw "type_abbrv_name"),
   ("ext_identifier", dec.fld "sff8436" raw "Extended Identifier"),
   ("encoding", dec.fld "sff8436" raw "Encoding"),
   ("ext_rateselect_compliance", dec.fld "sff8436" raw "Extended RateSelect Compliance"),
   ("connector", dec.fld "sff8436" raw "Connector"),
   ("hardware_rev", dec.fld "sff8436" raw "Vendor Rev"),
   ("manufacturer", dec.fld "sff8436" raw "Vendor Name"),
   ("model", dec.fld "sff8436" raw "Vendor PN"),
   ("memory_type", dec.fld "sff8436" raw "Upper Memory Type"),
   ("nominal_bit_rate", dec.fld "sff8436" raw "Nominal Bit Rate"),
   ("serial", dec.fld "sff8436" raw "Vendor SN"),
   ("vendor_date", dec.fld "sff8436" raw "Vendor Date Code"),
   ("vendor_oui", dec.fld "sff8436" raw "Vendor OUI")]

/-- The `sfp_keys` assignment loop for the SFF-8472 (SFP) branch. -/
def sfpInfoPairs (dec : DecOracle) (raw : List Nat) : List (String × String) :=
  [("type", dec.fld "sff8472" raw "TypeOfTransceiver"),
   ("type_abbrv_name", dec.fld "sff8472" raw "type_abbrv_name"),
   ("manufacturer", dec.fld "sff8472" raw "VendorName"),
   ("model", dec.fld "sff8472" raw "VendorPN"),
   ("hardware_rev", dec.fld "sff8472" raw "VendorRev"),
   ("serial", dec.fld "sff8472" raw "VendorSN"),
   ("connector", dec.fld "sff8472" raw "Connector"),
   ("encoding", dec.fld "sff8472" raw "EncodingCodes"),
   ("ext_identifier", dec.fld "sff8472" raw "ExtIdentOfTypeOfTransceiver"),
   ("nominal_bit_rate", dec.fld "sff8472" raw "NominalSignallingRate"),
   ("vendor_date", dec.fld "sff8472" raw "VendorDataCode"),
   ("vendor_oui", dec.fld "sff8472" raw "VendorOUI"),
   ("option_values", dec.fld "sff8472" raw "OptionValues")]

/-- The `sfp_keys` assignment loop for the MIS2 (SFP-DD) branch. -/
def mis2InfoPairs (dec : DecOracle) (raw : List Nat) : List (String × String) :=
  [("type", dec.fld "mis2" raw "Identifier"),
   ("type_abbrv_name", dec.fld "mis2" raw "type_abbrv_name"),
   ("manufacturer", dec.fld "mis2" raw "Vendor Name"),
   ("model", dec.fld "mis2" raw "Vendor Part Number"),
   ("hardware_rev", dec.fld "mis2" raw "Vendor Revision"),
   ("serial", dec.fld "mis2" raw "Vendor Serial Number"),
   ("vendor_date", dec.fld "mis2" raw "Vendor Date Code"),
   ("vendor_oui", dec.fld "mis2" raw "Vendor OUI"),
   ("module_state", dec.fld "mis2" raw "Module State"),
   ("media_type", dec.fld "mis2" raw "Media Type"),
   ("memory_type", dec.fld "mis2" raw "Upper Memory Type"),
   ("power_class", dec.fld "mis2" raw "Power Class"),
   ("revision_compliance", dec.fld "mis2" raw "Revision Compliance")]

/-- The successful-identification body of `get_transceiver_info`: the
pre-populated 17-key mapping followed by the branch assignments.  The
conditional assignments (cable type/length, application advertisement,
compliance, speed, wavelength, memory pages, diagnostics capabilities)
go through the decode oracle; they and the final `sfp_keys` loop only
ever assign keys, so no branch can remove a key from the mapping. -/
def infoFields (dec : DecOracle) (raw : List Nat) (t : Nat) : Dict :=
  let base := dictInit info_dict_keys "N/A"
  if t == XCVR_EEPROM_TYPE_QSFPDD || t == XCVR_EEPROM_TYPE_QSFP56 then
    let d := if dec.cond "cmis_cable" raw then dictSetAll base
      [("cable_type", dec.fld "inf8628" raw "cable_type"),
       ("cable_length", dec.fld "inf8628" raw "cable_length")] else base
    let d := if dec.cond "app_adv" raw then
      dictSet d "application_advertisement" (dec.fld "inf8628" raw "Application Advertisement")
      else d
    let d := dictSet d "xcvr_speed_max" (if t == XCVR_EEPROM_TYPE_QSFP56 then "200000" else "400000")
    dictSetAll d (cmisInfoPairs dec raw)
  else if t == XCVR_EEPROM_TYPE_QSFP then
    let d := if dec.cond "qsfp_wavelength" raw then
      dictSet base "wavelength" (dec.fld "sff8436" raw "Wavelength") else base
    let d := if dec.cond "qsfp_cable" raw then dictSetAll d
      [("cable_type", dec.fld "sff8436" raw "cable_type"),
       ("cable_length", dec.fld "sff8436" raw "cable_length")] else d
    let d := if dec.cond "qsfp_compliance" raw then
      dictSet d "specification_compliance" (dec.fld "sff8436" raw "Specification compliance")
      else d
    let d := dictSet d "xcvr_speed_max"
      (if dec.cond "qsfp_100g" raw then "100000" else "40000")
    dictSetAll d (qsfpInfoPairs dec raw)
  else if t == XCVR_EEPROM_TYPE_SFP then
    let d := if dec.cond "sfp_cable" raw then dictSetAll base
      [("cable_type", dec.fld "sff8472" raw "cable_type"),
       ("cable_length", dec.fld "sff8472" raw "cable_length")] else base
    let d := if dec.cond "sfp_compliance" raw then
      dictSet d "specification_compliance" (dec.fld "sff8472" raw "TransceiverCodes") else d
    let d := dictSet d "xcvr_speed_max" (dec.fld "sff8472" raw "xcvr_speed_max")
    dictSetAll d (sfpInfoPairs dec raw)
  else
    let d := if dec.cond "mis_cable" raw then dictSetAll base
      [("cable_type", dec.fld "mis2" raw "cable_type"),
       ("cable_length", dec.fld "mis2" raw "cable_length")] else base
    let d := if dec.cond "mis_app_adv" raw then
      dictSet d "application_advertisement" (dec.fld "mis2" raw "Application Advertisement")
      else d
    let d := dictSet d "xcvr_speed_max" "100000"
    dictSetAll d (mis2InfoPairs dec raw)

/-- `get_transceiver_info`: populate and alias the cache, identify, and
return the no-data result `none` when the cache could not be read or the
buffer cannot be identified; otherwise decode the identity record. -/
def get_transceiver_info (dec : DecOracle) (port : Nat)
    (cache : Option (List Nat)) : Option Dict :=
  match cache with
  | none => none
  | some raw0 =>
    let p := get_eeprom_type port raw0
    if p.1 == XCVR_EEPROM_TYPE_UNKNOWN then none
    else some (infoFields dec p.2 p.1)

/-! ## Supporting lemmas -/

theorem byteAt_set_ne (raw : List Nat) (j v i : Nat) (h : i ≠ j) :
    byteAt (raw.set j v) i = byteAt raw i := by
  simp [byteAt, List.getD, List.getElem?_set_ne (Ne.symm h)]

theorem byteAt_set_self (raw : List Nat) (j v : Nat) (h : j < raw.length) :
    byteAt (raw.set j v) j = v := by
  simp [byteAt, List.getD, List.getElem?_set_self, h]

theorem map_byteAt_set_outside (raw : List Nat) (j v len start : Nat)
    (h : j < start ∨ start + len ≤ j) :
    (List.range' start len).map (byteAt (raw.set j v))
      = (List.range' start len).map (byteAt raw) := by
  apply List.map_congr_left
  intro a ha
  rw [List.mem_range'_1] at ha
  exact byteAt_set_ne raw j v a (by omega)

theorem sum_range'_set (raw : List Nat) (j v : Nat) (hlen : j < raw.length) :
    ∀ (len start : Nat), start ≤ j → j < start + len →
      ((List.range' start len).map (byteAt (raw.set j v))).sum + byteAt raw j
        = ((List.range' start len).map (byteAt raw)).sum + v
  | 0, start, h1, h2 => by omega
  | len + 1, start, h1, h2 => by
    rw [List.range'_succ, List.map_cons, List.map_cons, List.sum_cons, List.sum_cons]
    rcases Nat.eq_or_lt_of_le h1 with he | hlt
    · rw [← he] at hlen h2 ⊢
      rw [byteAt_set_self raw start v hlen,
        map_byteAt_set_outside raw start v len (start + 1) (Or.inl (by omega))]
      omega
    · rw [byteAt_set_ne raw j v start (by omega)]
      have ih := sum_range'_set raw j v hlen len (start + 1) (by omega) (by omega)
      omega

theorem sumBytes_set (raw : List Nat) (j v start stop : Nat) (hlen : j < raw.length)
    (h1 : start ≤ j) (h2 : j < stop) :
    sumBytes (raw.set j v) start stop + byteAt raw j = sumBytes raw start stop + v := by
  unfold sumBytes
  exact sum_range'_set raw j v hlen (stop - start) start h1 (by omega)

theorem qsfp_sub_family (x : Nat) (h : listHas qsfpFamilyIds x = false) :
    listHas SFF8024_TYPE_QSFP x = false := by
  simp only [qsfpFamilyIds, SFF8024_TYPE_QSFP, SFF8024_TYPE_QSFPDD,
    SFF8024_TYPE_QSFP_CMIS_COMPLIANT, List.cons_append, List.nil_append, listHas,
    Bool.or_eq_false_iff] at h ⊢
  exact ⟨h.1, h.2.1, h.2.2.1, trivial⟩

theorem byte0_not_qsfp_of_dd (raw : List Nat)
    (hid : resolveQsfpId raw = 0x18 ∨ resolveQsfpId raw = 0x19) :
    listHas SFF8024_TYPE_QSFP (byteAt raw 0) = false := by
  by_cases h1 : listHas qsfpFamilyIds (byteAt raw 0) = true
  · have e : resolveQsfpId raw = byteAt raw 0 := by
      simp [resolveQsfpId, h1]
    rw [e] at hid
    rcases hid with h | h <;> rw [h] <;> decide
  · rw [Bool.not_eq_true] at h1
    exact qsfp_sub_family _ h1

theorem resolveQsfpId_set_high (raw : List Nat) (j v : Nat) (h0 : j ≠ 0) (h128 : j ≠ 128) :
    resolveQsfpId (raw.set j v) = resolveQsfpId raw := by
  have e0 : byteAt (raw.set j v) 0 = byteAt raw 0 := byteAt_set_ne _ _ _ _ (Ne.symm h0)
  have e128 : byteAt (raw.set j v) 128 = byteAt raw 128 := byteAt_set_ne _ _ _ _ (Ne.symm h128)
  simp only [resolveQsfpId, e0, e128]

theorem cmisChecksumOk_set_false (raw : List Nat) (j v : Nat)
    (h129 : 129 ≤ j) (h222 : j < 222) (hlen : j < raw.length)
    (hv : v < 256) (hold : byteAt raw j < 256) (hne : v ≠ byteAt raw j)
    (heq : byteAt raw 0 = byteAt raw 128)
    (hok : cmisChecksumOk raw = true) :
    cmisChecksumOk (raw.set j v) = false := by
  have e0 : byteAt (raw.set j v) 0 = byteAt raw 0 := byteAt_set_ne _ _ _ _ (by omega)
  have e128 : byteAt (raw.set j v) 128 = byteAt raw 128 := byteAt_set_ne _ _ _ _ (by omega)
  have e222 : byteAt (raw.set j v) 222 = byteAt raw 222 := byteAt_set_ne _ _ _ _ (by omega)
  have hns : ¬((byteAt raw 0 == 0x05 && byteAt raw 128 == 0x01) = true) := by
    rw [Bool.and_eq_true, beq_iff_eq, beq_iff_eq]
    omega
  have hcand : cmisCand1 raw = byteAt raw 0 := by
    unfold cmisCand1; rw [if_neg hns]
  have hcand2 : cmisCand1 (raw.set j v) = byteAt raw 0 := by
    unfold cmisCand1; rw [e0, e128, if_neg hns]
  have hsum := sumBytes_set raw j v 129 222 hlen h129 h222
  unfold cmisChecksumOk at hok ⊢
  simp only [CMIS_CHECKSUM, CMIS_CHECKSUM_START] at hok ⊢
  rw [hcand, ← heq] at hok
  rw [hcand2, e128, e222, ← heq]
  simp only [Bool.or_self, beq_iff_eq] at hok
  simp only [Bool.or_self, Bool.eq_false_iff, ne_eq, beq_iff_eq]
  omega

theorem get_eeprom_type_qsfp_branch (port : Nat) (raw : List Nat)
    (hport : port = PORT_TYPE_QSFP ∨ port = PORT_TYPE_QSFPDD)
    (hA : fitOverrideA raw = false) (hB : fitOverrideB raw = false) :
    get_eeprom_type port raw =
      if qsfpBranchType raw != XCVR_EEPROM_TYPE_UNKNOWN then
        (qsfpBranchType raw, normId raw (resolveQsfpId raw))
      else if fitOverrideC raw then (XCVR_EEPROM_TYPE_QSFP, normId raw (resolveQsfpId raw))
      else fallbackType raw := by
  rcases hport with h | h <;> subst h <;>
    simp [get_eeprom_type, hA, hB, PORT_TYPE_QSFP, PORT_TYPE_QSFPDD]

theorem qsfpBranchType_of_dd (raw : List Nat)
    (hid : resolveQsfpId raw = 0x18 ∨ resolveQsfpId raw = 0x19) :
    qsfpBranchType raw = if cmisChecksumOk raw then XCVR_EEPROM_TYPE_QSFPDD
      else XCVR_EEPROM_TYPE_UNKNOWN := by
  have h0 := byte0_not_qsfp_of_dd raw hid
  have h0p : byteAt raw 0 ≠ 12 ∧ byteAt raw 0 ≠ 13 ∧ byteAt raw 0 ≠ 17 := by
    simpa [listHas, SFF8024_TYPE_QSFP] using h0
  rcases hid with h | h <;>
    simp [qsfpBranchType, h, h0p.1, h0p.2.1, h0p.2.2, SFF8024_TYPE_QSFPDD,
      SFF8024_TYPE_QSFP_CMIS_COMPLIANT, listHas, XCVR_EEPROM_TYPE_QSFPDD,
      XCVR_EEPROM_TYPE_UNKNOWN, XCVR_EEPROM_TYPE_QSFP56]

theorem fallbackType_fst_ne_qsfpdd (raw : List Nat) :
    (fallbackType raw).1 ≠ XCVR_EEPROM_TYPE_QSFPDD := by
  unfold fallbackType
  split
  · simp [XCVR_EEPROM_TYPE_SFPDD, XCVR_EEPROM_TYPE_QSFPDD]
  · split <;>
      simp [XCVR_EEPROM_TYPE_SFP, XCVR_EEPROM_TYPE_UNKNOWN, XCVR_EEPROM_TYPE_QSFPDD]

theorem c1_iff_aux (port : Nat) (raw : List Nat)
    (hport : port = PORT_TYPE_QSFP ∨ port = PORT_TYPE_QSFPDD)
    (hid : resolveQsfpId raw = 0x18 ∨ resolveQsfpId raw = 0x19)
    (hA : fitOverrideA raw = false) (hB : fitOverrideB raw = false)
    (hC : fitOverrideC raw = false) :
    ((get_eeprom_type port raw).1 = XCVR_EEPROM_TYPE_QSFPDD ↔ cmisChecksumOk raw = true) := by
  rw [get_eeprom_type_qsfp_branch port raw hport hA hB, qsfpBranchType_of_dd raw hid]
  by_cases hck : cmisChecksumOk raw = true
  · simp [hck, XCVR_EEPROM_TYPE_QSFPDD, XCVR_EEPROM_TYPE_UNKNOWN]
  · rw [Bool.not_eq_true] at hck
    simp [hck, hC, XCVR_EEPROM_TYPE_QSFPDD, XCVR_EEPROM_TYPE_UNKNOWN]
    exact fallbackType_fst_ne_qsfpdd raw

/-! ## C1 -/

/-- C1 (amended): for a buffer whose resolved identifier (byte 0
preferred, else byte 128) is a QSFP-DD code and whose vendor fields do
not trigger the FIT HON TENG overrides, classification yields the
QSFP-DD class exactly when the CMIS checksum over `[129, 222)` (with
either identifier candidate added, modulo 256) matches byte 222; and
when the two identifier candidates coincide, flipping a single
non-checksum byte of `[129, 222)` always defeats the QSFP-DD
classification — though the cascade may still classify the flipped
buffer positively as another type. -/
theorem c1_cmis_checksum_classification (port : Nat) (raw : List Nat)
    (hport : port = PORT_TYPE_QSFP ∨ port = PORT_TYPE_QSFPDD)
    (hid : resolveQsfpId raw = 0x18 ∨ resolveQsfpId raw = 0x19)
    (hA : fitOverrideA raw = false) (hB : fitOverrideB raw = false)
    (hC : fitOverrideC raw = false) :
    ((get_eeprom_type port raw).1 = XCVR_EEPROM_TYPE_QSFPDD ↔ cmisChecksumOk raw = true) ∧
    (∀ j v, 129 ≤ j → j < 222 → j < raw.length → v < 256 → byteAt raw j < 256 →
      v ≠ byteAt raw j → byteAt raw 0 = byteAt raw 128 → cmisChecksumOk raw = true →
      fitOverrideA (raw.set j v) = false → fitOverrideB (raw.set j v) = false →
      fitOverrideC (raw.set j v) = false →
      (get_eeprom_type port (raw.set j v)).1 ≠ XCVR_EEPROM_TYPE_QSFPDD) := by
  constructor
  · exact c1_iff_aux port raw hport hid hA hB hC
  · intro j v hj1 hj2 hjl hv hob hne heq hok hA2 hB2 hC2
    have hid2 : resolveQsfpId (raw.set j v) = 0x18 ∨ resolveQsfpId (raw.set j v) = 0x19 := by
      rw [resolveQsfpId_set_high raw j v (by omega) (by omega)]
      exact hid
    have hck2 := cmisChecksumOk_set_false raw j v hj1 hj2 hjl hv hob hne heq hok
    intro hcontra
    have he := (c1_iff_aux port (raw.set j v) hport hid2 hA2 hB2 hC2).1 hcontra
    rw [he] at hck2
    simp at hck2

/-- C1 counterexample: `c1buf` has identifier `0x18` at bytes 0 and 128,
a valid CMIS checksum (so it classifies as QSFP-DD); flipping byte 150
from `0x00` to `0x01` breaks the CMIS checksum, yet classification does
not merely fall through — the cascade reaches the SFF-8472 step, whose
checksum over `[0, 63)` is valid, and positively classifies the flipped
buffer as SFP, contradicting the claim that no positive classification
of another type can result. -/
theorem c1_counterexample :
    cmisChecksumOk c1buf = true ∧
    (get_eeprom_type PORT_TYPE_QSFPDD c1buf).1 = XCVR_EEPROM_TYPE_QSFPDD ∧
    byteAt c1buf 150 ≠ 1 ∧
    cmisChecksumOk (c1buf.set 150 1) = false ∧
    (get_eeprom_type PORT_TYPE_QSFPDD (c1buf.set 150 1)).1 = XCVR_EEPROM_TYPE_SFP := by
  decide

/-- C1 witness: the amended theorem applied to the concrete buffer
`c1buf` and the concrete flip at byte 150. -/
theorem c1_witness :
    ((get_eeprom_type PORT_TYPE_QSFPDD c1buf).1 = XCVR_EEPROM_TYPE_QSFPDD ↔
      cmisChecksumOk c1buf = true) ∧
    (get_eeprom_type PORT_TYPE_QSFPDD (c1buf.set 150 1)).1 ≠ XCVR_EEPROM_TYPE_QSFPDD := by
  have h := c1_cmis_checksum_classification PORT_TYPE_QSFPDD c1buf (Or.inr rfl)
    (Or.inl (by decide)) (by decide) (by decide) (by decide)
  exact ⟨h.1, h.2 150 1 (by decide) (by decide) (by decide) (by decide) (by decide)
    (by decide) (by decide) (by decide) (by decide) (by decide) (by decide)⟩

/-! ## C5 -/

theorem qsfpBranchType_of_cmis_sig (raw : List Nat)
    (hid : resolveQsfpId raw = 0x1e) (hsig : qsfp56SigMatch raw = true) :
    qsfpBranchType raw = XCVR_EEPROM_TYPE_QSFP56 := by
  simp [qsfpBranchType, hid, hsig, SFF8024_TYPE_QSFPDD, SFF8024_TYPE_QSFP_CMIS_COMPLIANT,
    listHas, XCVR_EEPROM_TYPE_QSFP56, XCVR_EEPROM_TYPE_UNKNOWN]

/-- C5 (amended): for a buffer whose resolved identifier is the
CMIS-compliant code `0x1e`, whose bytes `[85, 90)` match one of the two
QSFP56 signatures, and whose decoded vendor fields do not trigger the
FIT HON TENG overrides (which run first and force QSFP or QSFP-DD),
identification returns QSFP56; no checksum hypothesis is needed. -/
theorem c5_qsfp56_pattern (port : Nat) (raw : List Nat)
    (hport : port = PORT_TYPE_QSFP ∨ port = PORT_TYPE_QSFPDD)
    (hid : resolveQsfpId raw = 0x1e) (hsig : qsfp56SigMatch raw = true)
    (hA : fitOverrideA raw = false) (hB : fitOverrideB raw = false) :
    (get_eeprom_type port raw).1 = XCVR_EEPROM_TYPE_QSFP56 := by
  rw [get_eeprom_type_qsfp_branch port raw hport hA hB,
    qsfpBranchType_of_cmis_sig raw hid hsig]
  simp [XCVR_EEPROM_TYPE_QSFP56, XCVR_EEPROM_TYPE_UNKNOWN]

/-- C5 counterexample: `c5buf` resolves to identifier `0x1e` and carries
the 200G QSFP56 SR4 signature at bytes `[85, 90)`, but its Vendor Part
Number field spells `FIT \x00ON TENG`, so the vendor-quirk override that
runs before the signature check classifies it as QSFP, not QSFP56. -/
theorem c5_counterexample :
    resolveQsfpId c5buf = 0x1e ∧ qsfp56SigMatch c5buf = true ∧
    (get_eeprom_type PORT_TYPE_QSFPDD c5buf).1 = XCVR_EEPROM_TYPE_QSFP ∧
    XCVR_EEPROM_TYPE_QSFP ≠ XCVR_EEPROM_TYPE_QSFP56 := by
  decide

/-- C5 witness: the amended theorem applied to the signature-bearing
buffer `c5okbuf`, whose CMIS checksum is in fact invalid. -/
theorem c5_witness :
    cmisChecksumOk c5okbuf = false ∧
    (get_eeprom_type PORT_TYPE_QSFPDD c5okbuf).1 = XCVR_EEPROM_TYPE_QSFP56 :=
  ⟨by decide, c5_qsfp56_pattern PORT_TYPE_QSFPDD c5okbuf (Or.inr rfl) (by decide)
    (by decide) (by decide) (by decide)⟩

/-! ## C7 -/

theorem byteAt_normId (raw : List Nat) (id i : Nat) (h0 : i ≠ 0) (h128 : i ≠ 128) :
    byteAt (normId raw id) i = byteAt raw i := by
  unfold normId
  rw [byteAt_set_ne _ _ _ _ h128, byteAt_set_ne _ _ _ _ h0]

theorem fallbackType_snd (raw : List Nat) : (fallbackType raw).2 = raw := by
  unfold fallbackType
  split
  · rfl
  · split <;> rfl

/-- C7 (amended): the cache is populated at most once (population is a
no-op on an existing snapshot) and fully invalidated only by the clear
operation; however, the identification step that `get_transceiver_info`
runs on the cache buffer normalizes bytes 0 and 128 in place whenever it
classifies the module, so only those two byte positions can change —
every other byte of the snapshot is preserved. -/
theorem c7_cache_locality (port : Nat) (raw fresh : List Nat) (i : Nat)
    (h0 : i ≠ 0) (h128 : i ≠ 128) :
    populate_eeprom_cache (some fresh) (some raw) = some raw ∧
    clear_eeprom_cache (some raw) = none ∧
    transceiver_info_cache port (some fresh) (some raw)
      = some (get_eeprom_type port raw).2 ∧
    byteAt (get_eeprom_type port raw).2 i = byteAt raw i := by
  refine ⟨rfl, rfl, rfl, ?_⟩
  have hn := byteAt_normId raw (resolveQsfpId raw) i h0 h128
  simp only [get_eeprom_type]
  split
  · split
    · exact hn
    · split
      · exact hn
      · split
        · exact hn
        · split
          · exact hn
          · rw [fallbackType_snd]
  · rw [fallbackType_snd]

/-- C7 counterexample: `c7buf` has `0x1e` at byte 0 but `0x00` at byte
128; `get_transceiver_info` hands the cache list itself to
`get_eeprom_type`, which classifies it as QSFP56 and rewrites byte 128 of
the cached snapshot from `0x00` to `0x1e` — the populated snapshot is
modified between population and invalidation. -/
theorem c7_counterexample :
    transceiver_info_cache PORT_TYPE_QSFPDD none (some c7buf)
      = some (get_eeprom_type PORT_TYPE_QSFPDD c7buf).2 ∧
    byteAt c7buf 128 = 0x00 ∧
    byteAt (get_eeprom_type PORT_TYPE_QSFPDD c7buf).2 128 = 0x1e := by
  refine ⟨rfl, by decide, by decide⟩

/-- C7 witness: the amended theorem applied to the concrete snapshot
`c7buf` at byte position 5. -/
theorem c7_witness :
    populate_eeprom_cache (some []) (some c7buf) = some c7buf ∧
    clear_eeprom_cache (some c7buf) = none ∧
    transceiver_info_cache PORT_TYPE_QSFPDD (some []) (some c7buf)
      = some (get_eeprom_type PORT_TYPE_QSFPDD c7buf).2 ∧
    byteAt (get_eeprom_type PORT_TYPE_QSFPDD c7buf).2 5 = byteAt c7buf 5 :=
  c7_cache_locality PORT_TYPE_QSFPDD c7buf [] 5 (by decide) (by decide)

/-! ## C8 -/

theorem masked_or_bits (old v m : Nat) :
    ((old ^^^ (old &&& m)) ||| (v &&& m)) &&& m = v &&& m := by
  apply Nat.eq_of_testBit_eq
  intro i
  simp only [Nat.testBit_and, Nat.testBit_or, Nat.testBit_xor]
  cases old.testBit i <;> cases v.testBit i <;> cases m.testBit i <;> rfl

theorem modify_noop_of_match (mem : Nat → Nat) (off v m : Nat)
    (h : mem off &&& m = v &&& m) :
    modify_eeprom_byte mem off v m = (true, mem, 0) := by
  unfold modify_eeprom_byte
  simp [h]

/-- C8 (amended): when the masked byte already matches, `modify_eeprom_byte`
performs no physical write and reports success; two consecutive calls with
the same value and mask perform at most one physical write — the first call
performs exactly one write when the initial masked byte differs and zero
when it already matches — and the second call is always a write-free
success. -/
theorem c8_modify_byte_writes (mem : Nat → Nat) (off v m : Nat) :
    (mem off &&& m = v &&& m → modify_eeprom_byte mem off v m = (true, mem, 0)) ∧
    (modify_eeprom_byte mem off v m).1 = true ∧
    modify_eeprom_byte (modify_eeprom_byte mem off v m).2.1 off v m
      = (true, (modify_eeprom_byte mem off v m).2.1, 0) ∧
    (modify_eeprom_byte mem off v m).2.2 ≤ 1 ∧
    (mem off &&& m ≠ v &&& m → (modify_eeprom_byte mem off v m).2.2 = 1) := by
  refine ⟨modify_noop_of_match mem off v m, ?_⟩
  by_cases hm : mem off &&& m = v &&& m
  · have h1 := modify_noop_of_match mem off v m hm
    rw [h1]
    exact ⟨rfl, modify_noop_of_match mem off v m hm, Nat.zero_le 1,
      fun hne => absurd hm hne⟩
  · have h1 : modify_eeprom_byte mem off v m =
        (true, fun i => if i == off then (mem off ^^^ (mem off &&& m)) ||| (v &&& m)
          else mem i, 1) := by
      unfold modify_eeprom_byte
      rw [if_pos]
      simp only [bne_iff_ne, ne_eq]
      exact fun hh => hm hh.symm
    rw [h1]
    have hmatch : (fun i => if i == off then (mem off ^^^ (mem off &&& m)) ||| (v &&& m)
        else mem i) off &&& m = v &&& m := by
      simp only [beq_self_eq_true, if_true]
      exact masked_or_bits (mem off) v m
    exact ⟨rfl, modify_noop_of_match _ off v m hmatch, Nat.le_refl 1, fun _ => rfl⟩

/-- C8 counterexample: with the byte at offset 5 already equal to `0xAB`,
two consecutive `modify_eeprom_byte(5, 0xAB, 0xFF)` calls both succeed
while performing zero physical writes in total — not exactly one. -/
theorem c8_counterexample :
    modify_eeprom_byte c8mem 5 0xAB 0xFF = (true, c8mem, 0) ∧
    modify_eeprom_byte (modify_eeprom_byte c8mem 5 0xAB 0xFF).2.1 5 0xAB 0xFF
      = (true, c8mem, 0) ∧
    (modify_eeprom_byte c8mem 5 0xAB 0xFF).2.2 +
      (modify_eeprom_byte (modify_eeprom_byte c8mem 5 0xAB 0xFF).2.1 5 0xAB 0xFF).2.2 = 0 :=
  ⟨rfl, rfl, rfl⟩

/-- C8 witness: the amended theorem applied at offset 5 on the memory
`c8mem` (byte `0xAB`), once with the matching value `0xAB` (no write) and
once with the differing value `0x12` (exactly one write). -/
theorem c8_witness :
    modify_eeprom_byte c8mem 5 0xAB 0xFF = (true, c8mem, 0) ∧
    (modify_eeprom_byte c8mem 5 0xAB 0xFF).2.2 ≤ 1 ∧
    (modify_eeprom_byte c8mem 5 0x12 0xFF).2.2 = 1 :=
  ⟨(c8_modify_byte_writes c8mem 5 0xAB 0xFF).1 (by decide),
   (c8_modify_byte_writes c8mem 5 0xAB 0xFF).2.2.2.1,
   (c8_modify_byte_writes c8mem 5 0x12 0xFF).2.2.2.2 (by decide)⟩

/-! ## C9 -/

/-- C9 (amended): with init type AUTO, passive/simple cable codes
(`0x03`, `0x05`) always infer Quick; for CMIS version exactly `0x30`
every other media code infers Complete (the source skips the software
quick/medium shortcuts for 3.0); for the remaining CMIS 3.x versions the
active-cable code `0x04` infers Medium and the optical codes
`0x01`/`0x02` infer Complete. -/
theorem c9_init_type_inference (cmis_ver m_type : Nat)
    (hver1 : 0x30 ≤ cmis_ver) (hver2 : cmis_ver < 0x40) :
    ((m_type = 0x03 ∨ m_type = 0x05) →
      determine_init_type cmis_ver m_type = INIT_TYPE_QUICK) ∧
    (cmis_ver = 0x30 → ¬(m_type = 0x03 ∨ m_type = 0x05) →
      determine_init_type cmis_ver m_type = INIT_TYPE_COMPLETE) ∧
    (cmis_ver ≠ 0x30 → m_type = 0x04 →
      determine_init_type cmis_ver m_type = INIT_TYPE_MEDIUM) ∧
    (cmis_ver ≠ 0x30 → (m_type = 0x01 ∨ m_type = 0x02) →
      determine_init_type cmis_ver m_type = INIT_TYPE_COMPLETE) := by
  refine ⟨?_, ?_, ?_, ?_⟩
  · intro h
    rcases h with h | h <;> subst h <;> rfl
  · intro hv h
    subst hv
    have h3 : m_type ≠ 3 := fun hh => h (Or.inl hh)
    have h5 : m_type ≠ 5 := fun hh => h (Or.inr hh)
    simp [determine_init_type, h3, h5]
  · intro hv h
    subst h
    simp [determine_init_type, hv]
  · intro hv h
    rcases h with h | h <;> subst h <;> simp [determine_init_type, hv]

/-- C9 counterexample: a CMIS 3.0 session (`cmis_ver = 0x30`) with the
active-cable media code `0x04` infers the Complete init type, not the
Medium type the claim requires. -/
theorem c9_counterexample :
    determine_init_type 0x30 0x04 = INIT_TYPE_COMPLETE ∧
    INIT_TYPE_COMPLETE ≠ INIT_TYPE_MEDIUM := by
  decide

/-- C9 witness: the amended theorem applied to `cmis_ver = 0x30` with the
MMF optical code `0x02`, selecting the Complete init type. -/
theorem c9_witness : determine_init_type 0x30 0x02 = INIT_TYPE_COMPLETE :=
  (c9_init_type_inference 0x30 0x02 (by decide) (by decide)).2.1 rfl (by decide)

/-! ## C3 and C10 -/

theorem read_retry_loop_all_fail (env : EepromEnv) (offset num_bytes : Nat)
    (hfail : ∀ k, env.attempt k = none)
    (hin : offset < SFP_EEPROM_MANDATORY_FIELD_OFFSET_LIMIT ∧
      offset + num_bytes ≤ SFP_EEPROM_MANDATORY_FIELD_OFFSET_LIMIT) :
    ∀ (fuel idx : Nat), read_retry_loop env offset num_bytes idx fuel
      = (none, fuel, List.replicate fuel retry_interval_ms)
  | 0, _ => rfl
  | fuel + 1, idx => by
    have ih := read_retry_loop_all_fail env offset num_bytes hfail hin fuel (idx + 1)
    simp only [read_retry_loop, hfail idx, if_pos hin, ih, List.replicate_succ]

theorem read_retry_loop_fail_out (env : EepromEnv) (offset num_bytes idx fuel : Nat)
    (hfail : env.attempt idx = none)
    (hout : ¬(offset < SFP_EEPROM_MANDATORY_FIELD_OFFSET_LIMIT ∧
      offset + num_bytes ≤ SFP_EEPROM_MANDATORY_FIELD_OFFSET_LIMIT)) :
    read_retry_loop env offset num_bytes idx (fuel + 1) = (none, 1, []) := by
  simp only [read_retry_loop, hfail, if_neg hout]

theorem read_retry_loop_first_ok (env : EepromEnv) (offset num_bytes idx fuel : Nat)
    (s : List Nat) (h0 : env.attempt idx = some s) :
    read_retry_loop env offset num_bytes idx (fuel + 1) = (some s, 1, []) := by
  simp only [read_retry_loop, h0]

/-- C3: a read whose byte range lies entirely within the mandatory first
256 bytes and whose I/O keeps failing performs exactly 4 attempts (the
retry loop runs `retry_expiry = 4` times), sleeping 250 ms after each
failed attempt, before returning the no-data result; a read positioned
outside the mandatory region fails after a single attempt with no sleep. -/
theorem c3_read_retry_policy (env : EepromEnv) (offset num_bytes : Nat)
    (hp : env.presence = true) :
    ((∀ k, env.attempt k = none) → offset < 256 → offset + num_bytes ≤ 256 →
      read_eeprom_model env offset num_bytes = (none, 4, [250, 250, 250, 250])) ∧
    (env.attempt 0 = none → ¬(offset < 256 ∧ offset + num_bytes ≤ 256) →
      read_eeprom_model env offset num_bytes = (none, 1, [])) := by
  constructor
  · intro hfail h1 h2
    have hl := read_retry_loop_all_fail env offset num_bytes hfail ⟨h1, h2⟩ 4 0
    unfold read_eeprom_model
    rw [hp]
    have h4 : retry_expiry = 4 := rfl
    rw [if_pos rfl, h4, hl]
    rfl
  · intro hfail hout
    have hl := read_retry_loop_fail_out env offset num_bytes 0 3 hfail hout
    unfold read_eeprom_model
    rw [hp]
    have h4 : retry_expiry = 3 + 1 := rfl
    rw [if_pos rfl, h4, hl]

/-- C3 witness: the theorem applied to the always-failing transport at
offset 10 (inside the mandatory region) and offset 300 (outside it). -/
theorem c3_witness :
    read_eeprom_model failEnv 10 1 = (none, 4, [250, 250, 250, 250]) ∧
    read_eeprom_model failEnv 300 1 = (none, 1, []) :=
  ⟨(c3_read_retry_policy failEnv 10 1 rfl).1 (fun _ => rfl) (by decide) (by decide),
   (c3_read_retry_policy failEnv 300 1 rfl).2 rfl (by decide)⟩

/-- C10: when the transport returns fewer bytes than requested,
`read_eeprom` pads the result with zero bytes to exactly `num_bytes`
entries and `get_eeprom_raw` renders them as `"00"` hex-pair strings, so
a successful read always has exactly the requested length and a short
hardware read is indistinguishable from trailing zero data. -/
theorem c10_short_read_padding (env : EepromEnv) (offset num_bytes : Nat) (s : List Nat)
    (hp : env.presence = true) (h0 : env.attempt 0 = some s)
    (hl : s.length ≤ num_bytes) :
    read_eeprom_model env offset num_bytes
      = (some (s ++ List.replicate (num_bytes - s.length) 0), 1, []) ∧
    (s ++ List.replicate (num_bytes - s.length) 0).length = num_bytes ∧
    get_eeprom_raw_model env offset num_bytes
      = some (s.map hex2 ++ List.replicate (num_bytes - s.length) "00") := by
  have hloop := read_retry_loop_first_ok env offset num_bytes 0 3 s h0
  have hread : read_eeprom_model env offset num_bytes
      = (some (s ++ List.replicate (num_bytes - s.length) 0), 1, []) := by
    unfold read_eeprom_model
    rw [hp]
    have h4 : retry_expiry = 3 + 1 := rfl
    rw [if_pos rfl, h4, hloop]
  have hlen : (s ++ List.replicate (num_bytes - s.length) 0).length = num_bytes := by
    simp only [List.length_append, List.length_replicate]
    omega
  refine ⟨hread, hlen, ?_⟩
  have hmaplen : ((s ++ List.replicate (num_bytes - s.length) 0).map hex2).length
      = num_bytes := by
    rw [List.length_map, hlen]
  unfold get_eeprom_raw_model
  rw [hread]
  show some ((s ++ List.replicate (num_bytes - s.length) 0).map hex2 ++
      List.replicate
        (num_bytes - ((s ++ List.replicate (num_bytes - s.length) 0).map hex2).length)
        "00")
    = some (s.map hex2 ++ List.replicate (num_bytes - s.length) "00")
  rw [hmaplen, Nat.sub_self]
  simp only [List.replicate_zero, List.append_nil, List.map_append, List.map_replicate]
  have h00 : hex2 0 = "00" := by decide
  rw [h00]

/-- C10 witness: the theorem applied to a transport returning the 2-byte
buffer `[7, 8]` for a 5-byte request. -/
theorem c10_witness :
    read_eeprom_model (shortEnv [7, 8]) 0 5
      = (some ([7, 8] ++ List.replicate 3 0), 1, []) ∧
    (([7, 8] : List Nat) ++ List.replicate 3 0).length = 5 ∧
    get_eeprom_raw_model (shortEnv [7, 8]) 0 5
      = some (([7, 8] : List Nat).map hex2 ++ List.replicate 3 "00") :=
  c10_short_read_padding (shortEnv [7, 8]) 0 5 [7, 8] rfl rfl (by decide)

/-! ## C4 -/

/-- C4: for `lanes_per_port` in {1, 2, 4, 8}, the 8-byte
application-select array staged during CMIS initialization equals
`[application << 4] * 8` with exactly the documented first-lane
markers OR-ed in, identically in the CMIS 4.x builder (on the attempts
whose `retries` counter is even, which includes the first attempt, since
the budget is doubled) and the CMIS 3.x builder (on every attempt before
the last, whose `retries` counter is nonzero). -/
theorem c4_app_select_pattern (application lanes_per_port r4 r3 : Nat)
    (hl : lanes_per_port = 1 ∨ lanes_per_port = 2 ∨ lanes_per_port = 4 ∨ lanes_per_port = 8)
    (h4 : r4 % 2 = 0) (h3 : r3 ≠ 0) :
    cmis4_app_select_bytes application lanes_per_port r4
      = claimed_app_select application lanes_per_port ∧
    cmis3_app_select_bytes application lanes_per_port r3
      = claimed_app_select application lanes_per_port := by
  have h4b : (r4 &&& 0x01 == 1) = false := by
    have he : r4 &&& 1 = r4 % 2 := Nat.and_one_is_mod r4
    simp [he, h4]
  have h3b : (r3 == 0) = false := by simp [h3]
  rcases hl with h | h | h | h <;> subst h <;> constructor <;>
    simp [cmis4_app_select_bytes, cmis3_app_select_bytes, claimed_app_select, orAt,
      h4b, h3b] <;>
    (intro hc; omega)

/-- C4 witness: the theorem applied to application code 2 with 4 lanes
per port, an even CMIS 4.x retry counter, and a nonzero CMIS 3.x retry
counter. -/
theorem c4_witness :
    cmis4_app_select_bytes 2 4 6 = claimed_app_select 2 4 ∧
    cmis3_app_select_bytes 2 4 3 = claimed_app_select 2 4 :=
  c4_app_select_pattern 2 4 6 3 (Or.inr (Or.inr (Or.inl rfl))) (by decide) (by decide)

/-! ## C2 -/

theorem writeBytes_single (r : Regs) (off v : Nat) : writeBytes r off [v] off = v := by
  simp [writeBytes]

/-- C2 (amended): the CMIS 4.x session does not clear tx-disable on the
no-application-change early exit (nor can it when a register read fails
and the resulting exception is caught by `initialize`); on every run
that passes the precheck, however, the tx-enable value `0x00` is written
to the tx-disable register before returning, for every lane count,
retry budget, device state, and outcome. -/
theorem c2_tx_enable_cleared (application lanes_per_port retries : Nat) (r : Regs)
    (hskip : ¬(r STAGED_CS0_SELECT_FLAT >>> 4 = application ∧
      (r MOD_FLAGS_FLAT >>> 1) &&& 0x7 = 3)) :
    (init_cmis4 application lanes_per_port retries r).2 TX_DISABLE_FLAT = 0 := by
  have hb : ¬((r STAGED_CS0_SELECT_FLAT >>> 4 == application &&
      (r MOD_FLAGS_FLAT >>> 1) &&& 0x7 == 3) = true) := by
    rw [Bool.and_eq_true, beq_iff_eq, beq_iff_eq]
    exact hskip
  unfold init_cmis4
  rw [if_neg hb]
  exact writeBytes_single (cmis4_loop application lanes_per_port (retries * 2) r).2
    TX_DISABLE_FLAT 0

/-- C2 counterexample: on a device whose staged application nibble
already matches and whose module state reads Ready, `initialize_cmis4`
returns success immediately without performing a single register write;
tx-disable stays latched at `0xFF`, so this run does not clear
tx-disable before returning. -/
theorem c2_counterexample :
    init_cmis4 1 8 1 c2SkipRegs = (true, c2SkipRegs) ∧
    c2SkipRegs TX_DISABLE_FLAT = 0xFF ∧
    (init_cmis4 1 8 1 c2SkipRegs).2 TX_DISABLE_FLAT = 0xFF :=
  ⟨rfl, rfl, rfl⟩

/-- C2 witness: the amended theorem applied to the all-zero device state
(whose staged application nibble 0 differs from application 1). -/
theorem c2_witness : (init_cmis4 1 8 1 zeroRegs).2 TX_DISABLE_FLAT = 0 :=
  c2_tx_enable_cleared 1 8 1 zeroRegs (by decide)

/-! ## C6 -/

theorem lookup_dictSet_isSome (d : Dict) (k k2 v : String)
    (h : (List.lookup k d).isSome) : (List.lookup k (dictSet d k2 v)).isSome := by
  unfold dictSet
  simp only [List.lookup]
  by_cases hk : (k == k2) = true
  · simp [hk]
  · rw [Bool.not_eq_true] at hk
    simp [hk, h]

theorem lookup_dictSetAll_isSome (k : String) :
    ∀ (ps : List (String × String)) (d : Dict),
      (List.lookup k d).isSome → (List.lookup k (dictSetAll d ps)).isSome
  | [], _, h => h
  | (k2, v) :: ps, d, h =>
    lookup_dictSetAll_isSome k ps (dictSet d k2 v) (lookup_dictSet_isSome d k k2 v h)

theorem lookup_dictInit (keys : List String) (v : String) (k : String) (h : k ∈ keys) :
    (List.lookup k (dictInit keys v)).isSome := by
  induction keys with
  | nil => cases h
  | cons a t ih =>
    simp only [dictInit, List.map_cons, List.lookup]
    by_cases hk : (k == a) = true
    · simp [hk]
    · rw [Bool.not_eq_true] at hk
      simp only [hk]
      rcases List.mem_cons.mp h with he | ht
      · subst he
        simp at hk
      · exact ih ht

theorem c6_bulk_keys_total (dec : DecOracle) (port : Nat)
    (read : Nat → Nat → Option (List Nat)) (k : String) (hk : k ∈ bulk_status_keys) :
    (List.lookup k (get_transceiver_bulk_status dec port read)).isSome := by
  have hbase := lookup_dictInit bulk_status_keys "N/A" k hk
  simp only [get_transceiver_bulk_status]
  split
  · exact hbase
  · split
    · exact hbase
    · split
      · exact lookup_dictSetAll_isSome k _ _ hbase
      · split
        · apply lookup_dictSetAll_isSome
          split
          · exact lookup_dictSetAll_isSome k _ _ hbase
          · exact hbase
        · split
          · exact lookup_dictSetAll_isSome k _ _ hbase
          · split
            · exact hbase
            · split
              · exact hbase
              · exact lookup_dictSetAll_isSome k _ _ hbase

theorem c6_threshold_keys_total (dec : DecOracle) (port : Nat)
    (read : Nat → Nat → Option (List Nat)) (k : String) (hk : k ∈ threshold_keys) :
    (List.lookup k (get_transceiver_threshold_info dec port read)).isSome := by
  have hbase := lookup_dictInit threshold_keys "N/A" k hk
  simp only [get_transceiver_threshold_info]
  split
  · exact hbase
  · split
    · exact hbase
    · split
      · split
        · exact hbase
        · exact lookup_dictSetAll_isSome k _ _ hbase
      · split
        · split
          · exact hbase
          · apply lookup_dictSetAll_isSome
            split
            · exact lookup_dictSetAll_isSome k _ _ (lookup_dictSetAll_isSome k _ _ hbase)
            · exact lookup_dictSetAll_isSome k _ _ hbase
        · split
          · split
            · exact hbase
            · exact lookup_dictSetAll_isSome k _ _ hbase
          · split
            · split
              · exact hbase
              · exact lookup_dictSetAll_isSome k _ _ hbase
            · exact hbase

theorem c6_info_none_of_unknown (dec : DecOracle) (port : Nat) (raw : List Nat)
    (h : (get_eeprom_type port raw).1 = XCVR_EEPROM_TYPE_UNKNOWN) :
    get_transceiver_info dec port (some raw) = none := by
  simp only [get_transceiver_info, h, XCVR_EEPROM_TYPE_UNKNOWN]
  simp

/-- C6 (amended): under the spec's contract for the decode engine
(total, never raising), `get_transceiver_bulk_status` and
`get_transceiver_threshold_info` return a mapping containing every one
of their declared field keys for every buffer and every read outcome,
with undecodable buffers degrading to the pre-populated `"N/A"`
sentinels; `get_transceiver_info`, by contrast, returns the distinguished
no-data result `None` (not a key-complete mapping) whenever the cache
read fails or the buffer cannot be identified. -/
theorem c6_decoders_total (dec : DecOracle) (port : Nat)
    (read : Nat → Nat → Option (List Nat)) (raw : List Nat) :
    (∀ k, k ∈ bulk_status_keys →
      (List.lookup k (get_transceiver_bulk_status dec port read)).isSome) ∧
    (∀ k, k ∈ threshold_keys →
      (List.lookup k (get_transceiver_threshold_info dec port read)).isSome) ∧
    ((get_eeprom_type port raw).1 = XCVR_EEPROM_TYPE_UNKNOWN →
      get_transceiver_info dec port (some raw) = none) ∧
    get_transceiver_info dec port none = none :=
  ⟨fun k hk => c6_bulk_keys_total dec port read k hk,
   fun k hk => c6_threshold_keys_total dec port read k hk,
   fun h => c6_info_none_of_unknown dec port raw h,
   rfl⟩

/-- C6 counterexample: on the all-`0xFF` buffer (one of the buffers the
claim explicitly ranges over) identification yields Unknown and
`get_transceiver_info` returns `None` instead of a mapping containing
its declared field keys. -/
theorem c6_counterexample :
    (get_eeprom_type PORT_TYPE_QSFPDD c6buf).1 = XCVR_EEPROM_TYPE_UNKNOWN ∧
    get_transceiver_info decNA PORT_TYPE_QSFPDD (some c6buf) = none := by
  refine ⟨by decide, c6_info_none_of_unknown decNA PORT_TYPE_QSFPDD c6buf (by decide)⟩

/-- C6 witness: the amended theorem applied to the constant-`"N/A"`
decode engine, the always-failing transport, and the all-`0xFF`
buffer. -/
theorem c6_witness :
    (List.lookup "temperature" (get_transceiver_bulk_status decNA PORT_TYPE_QSFPDD
      (fun _ _ => none))).isSome ∧
    (List.lookup "temphighalarm" (get_transceiver_threshold_info decNA PORT_TYPE_QSFPDD
      (fun _ _ => none))).isSome ∧
    get_transceiver_info decNA PORT_TYPE_QSFPDD (some c6buf) = none := by
  have h := c6_decoders_total decNA PORT_TYPE_QSFPDD (fun _ _ => none) c6buf
  exact ⟨h.1 "temperature" (by decide), h.2.1 "temphighalarm" (by decide),
    h.2.2.1 (by decide)⟩
